import Mathlib

/-!
Verification of the parcel geometry export subsystem (WKT decoder, GeoPackage
binary geometry encoder, GeoPackage / KML / GeoJSON layer exporters).

Shallow embedding conventions:
* JavaScript `number` values that hold coordinates are modelled as exact
  rationals (`ℚ`); the special values `Infinity`, `-Infinity` and `NaN` that
  the code manipulates during envelope folds and dynamic field access are
  modelled by the enumeration `JNum`.
* Byte buffers (`ArrayBuffer` + `DataView`) are modelled as `List GByte`,
  where a `GByte` is either a concrete byte value or the `i`-th byte of the
  IEEE-754 little-endian image of a float64 (kept symbolic: the claims are
  about layout, not about float bit patterns).
* `DataView.setUintN/setFloat64` become in-place list updates via `writeChunk`,
  mirroring the manual offset arithmetic of the source.
* Fallible code (`throw`) is modelled with `Except String` / `Option`.
-/

set_option linter.unusedVariables false

namespace Parcelizator

/-- WGS84 coordinate object `{lat, lng}` (see the data model in WktParser /
    the exporters). -/
structure Coord where
  lat : ℚ
  lng : ℚ
  deriving DecidableEq, Repr

/-- JavaScript numbers as they occur in the export pipeline: finite values
    (modelled exactly as rationals), the infinities used as envelope-fold
    seeds, and `NaN` (also standing for `undefined` flowing into a numeric
    position, since `undefined` compares false and converts to `NaN`). -/
inductive JNum where
  | fin (q : ℚ)
  | posInf
  | negInf
  | nan
  deriving DecidableEq, Repr

/-- JavaScript `<` on numbers: any comparison with `NaN` is false. -/
def jlt : JNum → JNum → Bool
  | .nan, _ => false
  | _, .nan => false
  | .fin a, .fin b => a < b
  | .fin _, .posInf => true
  | .fin _, .negInf => false
  | .posInf, _ => false
  | .negInf, .negInf => false
  | .negInf, _ => true

/-- An element of a JavaScript array that `polygonToWkb` / the envelope folds
    iterate over as if it were a coordinate.  In the intended (POLYGON) case
    it is a `{lat, lng}` object; when a MultiPolygon coordinate nesting is
    passed through unchanged it is itself an array, whose `.lat`/`.lng`
    accesses yield `undefined` (modelled as `JNum.nan`, see `JNum`). -/
inductive JCoord where
  | c (p : Coord)
  | a (xs : List JCoord)

/-- Property access `coord.lng` under the dynamic view. -/
def JCoord.lng : JCoord → JNum
  | .c p => .fin p.lng
  | .a _ => .nan

/-- Property access `coord.lat` under the dynamic view. -/
def JCoord.lat : JCoord → JNum
  | .c p => .fin p.lat
  | .a _ => .nan

/-- One byte of an output buffer: either a concrete byte value or the `i`-th
    byte of the 8-byte little-endian IEEE-754 image of a float64 (symbolic). -/
inductive GByte where
  | u8 (n : ℕ)
  | f64 (v : JNum) (i : Fin 8)
  deriving DecidableEq, Repr

/-- A fresh `ArrayBuffer(n)` (zero-initialized). -/
def zeros (n : ℕ) : List GByte := List.replicate n (.u8 0)

/-- Write the bytes of `chunk` at consecutive offsets starting at `off`
    (the common core of the `DataView` setters and `Uint8Array.set`). -/
def writeChunk : List GByte → ℕ → List GByte → List GByte
  | buf, _, [] => buf
  | buf, off, b :: bs => writeChunk (buf.set off b) (off + 1) bs

/-- Bytes written by `setUint8` (value taken mod 256). -/
def u8chunk (n : ℕ) : List GByte := [.u8 (n % 256)]

/-- Bytes written by `setUint32(·, ·, true)`: little-endian, value mod 2^32. -/
def u32chunk (n : ℕ) : List GByte :=
  [.u8 (n % 256), .u8 (n / 256 % 256), .u8 (n / 256 / 256 % 256),
   .u8 (n / 256 / 256 / 256 % 256)]

/-- Bytes written by `setInt32(·, ·, true)`: two's complement little-endian. -/
def i32chunk (z : ℤ) : List GByte := u32chunk (z % (2 ^ 32 : ℤ)).toNat

/-- Bytes written by `setFloat64(·, ·, true)`: the 8 little-endian bytes of
    the float64 image of `v`, kept symbolic. -/
def f64chunk (v : JNum) : List GByte := (List.finRange 8).map (GByte.f64 v)

/-- Envelope object `{minX, maxX, minY, maxY}` as built by `createPolygonGpb`
    (fields listed in the order the header writes them). -/
structure Envelope where
  minX : JNum
  maxX : JNum
  minY : JNum
  maxY : JNum
  deriving DecidableEq, Repr

/-! ### GeopkgExporter: binary geometry encoder (`createGpbHeader`,
`pointToWkb`, `polygonToWkb`, `createPointGpb`, `createPolygonGpb`). -/

/-- `createGpbHeader(srsId, envelope)`: GPB header via `DataView` writes.
    Magic "GP", version 0, flag byte `(envelopeType << 1) | 0x01`, int32
    srsId, then (if an envelope is present) minX, maxX, minY, maxY. -/
def createGpbHeader (srsId : ℤ) (envelope : Option Envelope) : List GByte :=
  let hasEnvelope := envelope.isSome
  let envelopeType : ℕ := if hasEnvelope then 1 else 0
  let flags : ℕ := (envelopeType <<< 1) ||| 0x01
  let headerSize := if hasEnvelope then 8 + 32 else 8
  let view := zeros headerSize
  let view := writeChunk view 0 (u8chunk 0x47)
  let view := writeChunk view 1 (u8chunk 0x50)
  let view := writeChunk view 2 (u8chunk 0)
  let view := writeChunk view 3 (u8chunk flags)
  let view := writeChunk view 4 (i32chunk srsId)
  match envelope with
  | none => view
  | some e =>
    let view := writeChunk view 8 (f64chunk e.minX)
    let view := writeChunk view 16 (f64chunk e.maxX)
    let view := writeChunk view 24 (f64chunk e.minY)
    writeChunk view 32 (f64chunk e.maxY)

/-- `pointToWkb(lng, lat)`: 21-byte WKB point, written at offsets 0/1/5/13. -/
def pointToWkb (lng lat : ℚ) : List GByte :=
  let buffer := zeros 21
  let buffer := writeChunk buffer 0 (u8chunk 1)
  let buffer := writeChunk buffer 1 (u32chunk 1)
  let buffer := writeChunk buffer 5 (f64chunk (.fin lng))
  writeChunk buffer 13 (f64chunk (.fin lat))

/-- The inner `ring.forEach((coord) => ...)` body of `polygonToWkb`: two
    `setFloat64` writes advancing the offset by 8 each (named here so the
    buffer/offset fold can be reasoned about; the source inlines it). -/
def wkbCoordWrite (s : List GByte × ℕ) (coord : JCoord) : List GByte × ℕ :=
  let s := (writeChunk s.1 s.2 (f64chunk coord.lng), s.2 + 8)
  (writeChunk s.1 s.2 (f64chunk coord.lat), s.2 + 8)

/-- The `rings.forEach((ring) => ...)` body of `polygonToWkb`: point count,
    then the ring's coordinates. -/
def wkbRingWrite (st : List GByte × ℕ) (ring : List JCoord) : List GByte × ℕ :=
  let st := (writeChunk st.1 st.2 (u32chunk ring.length), st.2 + 4)
  ring.foldl wkbCoordWrite st

/-- `polygonToWkb(rings)`: size computation, allocation, then sequential
    writes with a mutable offset (modelled as a `(buffer, offset)` fold). -/
def polygonToWkb (rings : List (List JCoord)) : List GByte :=
  let totalSize := rings.foldl (fun acc ring => acc + (4 + ring.length * 16)) 9
  let init : List GByte × ℕ := (zeros totalSize, 0)
  let st := (writeChunk init.1 init.2 (u8chunk 1), init.2 + 1)
  let st := (writeChunk st.1 st.2 (u32chunk 3), st.2 + 4)
  let st := (writeChunk st.1 st.2 (u32chunk rings.length), st.2 + 4)
  (rings.foldl wkbRingWrite st).1

/-- `gpb.set(header, 0); gpb.set(wkb, header.length)` on a fresh
    `Uint8Array(header.length + wkb.length)`. -/
def concatBufs (header wkb : List GByte) : List GByte :=
  writeChunk (writeChunk (zeros (header.length + wkb.length)) 0 header)
    header.length wkb

/-- `createPointGpb(lng, lat, srsId = 4326)`: degenerate envelope, header,
    WKB point, concatenated into one buffer. -/
def createPointGpb (lng lat : ℚ) (srsId : ℤ := 4326) : List GByte :=
  let envelope : Envelope := ⟨.fin lng, .fin lng, .fin lat, .fin lat⟩
  let header := createGpbHeader srsId (some envelope)
  let wkb := pointToWkb lng lat
  concatBufs header wkb

/-- One step of the envelope fold in `createPolygonGpb` (and of the identical
    per-layer bounds folds in the GeoPackage exporter):
    `if (coord.lng < minX) minX = coord.lng;` etc.  JavaScript `a > b` is
    `jlt b a`. -/
def envStep (st : Envelope) (coord : JCoord) : Envelope :=
  let st := if jlt coord.lng st.minX then { st with minX := coord.lng } else st
  let st := if jlt st.maxX coord.lng then { st with maxX := coord.lng } else st
  let st := if jlt coord.lat st.minY then { st with minY := coord.lat } else st
  if jlt st.maxY coord.lat then { st with maxY := coord.lat } else st

/-- The envelope computation of `createPolygonGpb`: fold over every
    coordinate of every ring, seeded with
    `minX = minY = Infinity, maxX = maxY = -Infinity`. -/
def computeEnvelope (rings : List (List JCoord)) : Envelope :=
  rings.foldl (fun st ring => ring.foldl envStep st)
    ⟨.posInf, .negInf, .posInf, .negInf⟩

/-- `createPolygonGpb(rings, srsId = 4326)`. -/
def createPolygonGpb (rings : List (List JCoord)) (srsId : ℤ := 4326) :
    List GByte :=
  let envelope := computeEnvelope rings
  let header := createGpbHeader srsId (some envelope)
  let wkb := polygonToWkb rings
  concatBufs header wkb

/-- View of a typed ring list (POLYGON coordinates) as the JavaScript array
    `polygonToWkb` receives. -/
def ringsToJ (rings : List (List Coord)) : List (List JCoord) :=
  rings.map (List.map JCoord.c)

/-! ### WktParser: `parseWkt`, its helpers and `extractVertices`.

String-valued code is modelled on `List Char`.  The regular expressions of
the source are hand-compiled: `\s` is ASCII whitespace, `/i` flags become
uppercase-both comparisons, the unanchored greedy `(.+)` groups become
"first occurrence of the opener, content up to the last occurrence of the
closer" (exact for the newline-free inputs this system feeds the decoder). -/

/-- Characters matched by `\s` (ASCII fragment, sufficient for WKT input). -/
def isWsChar (c : Char) : Bool := c == ' ' || c == '\t' || c == '\n' || c == '\r'

/-- JavaScript `String.prototype.trim` on a char list. -/
def jsTrimL (cs : List Char) : List Char :=
  ((cs.dropWhile isWsChar).reverse.dropWhile isWsChar).reverse

/-- Case-insensitive literal match: `pat` is given uppercased; returns the
    remainder after the match. -/
def matchCI (pat cs : List Char) : Option (List Char) :=
  if (cs.take pat.length).map Char.toUpper = pat then some (cs.drop pat.length)
  else none

/-- The tagged geometry value `{type, coordinates}` produced by the decoder
    (`GeometryType.POLYGON` / `GeometryType.MULTIPOLYGON`). -/
inductive Geometry where
  | polygon (coordinates : List (List Coord))
  | multiPolygon (coordinates : List (List (List Coord)))
  deriving DecidableEq, Repr

/-- Geometry keyword as detected by `detectGeometryType`. -/
inductive WktKeyword where
  | polygonT
  | multiPolygonT
  deriving DecidableEq, Repr

/-- `removeSridPrefix(wkt)` (name shortened): strip an optional
    `SRID=<digits>;` prefix (`/^SRID=\d+;/i`), then trim. -/
def removeSrid (wkt : String) : String :=
  let cs := wkt.data
  let stripped :=
    match matchCI "SRID=".data cs with
    | none => cs
    | some r1 =>
      let digits := r1.takeWhile Char.isDigit
      if digits.isEmpty then cs
      else
        match r1.drop digits.length with
        | ';' :: rest => rest
        | _ => cs
  ⟨jsTrimL stripped⟩

/-- `detectGeometryType(wkt)`: uppercase, then prefix-dispatch; unknown
    keywords throw. -/
def detectGeometryType (wkt : String) : Except String WktKeyword :=
  let upperWkt := wkt.data.map Char.toUpper
  if "MULTIPOLYGON".data.isPrefixOf upperWkt then .ok .multiPolygonT
  else if "POLYGON".data.isPrefixOf upperWkt then .ok .polygonT
  else .error "Unknown or unsupported WKT geometry type"

/-- Decimal digits to a natural number. -/
def digitsToNat (ds : List Char) : ℕ :=
  ds.foldl (fun n c => n * 10 + (c.toNat - 48)) 0

/-- JavaScript `Number(string)` on the literal forms WKT coordinates can
    take: whitespace-trimmed; empty string is `0`; optional sign; decimal
    digits with optional fraction and exponent; `Infinity`; anything else is
    `NaN`.  (Hex/octal/binary literals are not modelled — they cannot reach
    the decoder from WKT input.) -/
def jsNumber (s : String) : JNum :=
  let cs := jsTrimL s.data
  if cs.isEmpty then .fin 0 else
  let signSplit : Bool × List Char :=
    match cs with
    | '-' :: t => (true, t)
    | '+' :: t => (false, t)
    | t => (false, t)
  let neg := signSplit.1
  let cs1 := signSplit.2
  if cs1 = "Infinity".data then (if neg then .negInf else .posInf)
  else
    let ip := cs1.takeWhile Char.isDigit
    let r1 := cs1.drop ip.length
    let fracSplit : List Char × List Char :=
      match r1 with
      | '.' :: t => (t.takeWhile Char.isDigit, t.dropWhile Char.isDigit)
      | t => ([], t)
    let fp := fracSplit.1
    let r2 := fracSplit.2
    if ip.isEmpty && fp.isEmpty then .nan
    else
      let mant : ℚ :=
        (digitsToNat ip : ℚ) + (digitsToNat fp : ℚ) / ((10 : ℚ) ^ fp.length)
      let signed : ℚ := if neg then -mant else mant
      match r2 with
      | [] => .fin signed
      | e :: t =>
        if e == 'e' || e == 'E' then
          let esplit : Bool × List Char :=
            match t with
            | '-' :: u => (true, u)
            | '+' :: u => (false, u)
            | u => (false, u)
          let ed := esplit.2.takeWhile Char.isDigit
          if ed.isEmpty || !(esplit.2.drop ed.length).isEmpty then .nan
          else
            let ex : ℤ :=
              if esplit.1 then -(digitsToNat ed : ℤ) else (digitsToNat ed : ℤ)
            .fin (signed * (10 : ℚ) ^ ex)
        else .nan

/-- Split a char list at every occurrence of a separator character
    (JavaScript `split(",")`). -/
def splitChar (sep : Char) : List Char → List (List Char)
  | [] => [[]]
  | c :: rest =>
    if c == sep then [] :: splitChar sep rest
    else
      match splitChar sep rest with
      | [] => [[c]]
      | t :: ts => (c :: t) :: ts

/-- JavaScript `trimmedPair.split(/\s+/)` for the already-trimmed pair
    strings of `parseCoordinatePairs`: the empty string yields `[""]`, a
    nonempty trimmed string yields its whitespace-separated words. -/
def splitWs (cs : List Char) : List (List Char) :=
  if cs.isEmpty then [[]]
  else (splitChar ' ' (cs.map fun c => if isWsChar c then ' ' else c)).filter
    (fun t => !t.isEmpty)

/-- Split at every (non-overlapping, leftmost-first) occurrence of a
    separator pattern, scanning like `String.prototype.split(regex)`.
    `pat` returns the remainder after a match starting at the given
    position; the fuel argument is an upper bound on the scan length. -/
def splitPat (pat : List Char → Option (List Char)) :
    ℕ → List Char → List Char → List (List Char)
  | 0, cs, acc => [acc.reverse ++ cs]
  | _ + 1, [], acc => [acc.reverse]
  | fuel + 1, c :: rest, acc =>
    match pat (c :: rest) with
    | some rem => acc.reverse :: splitPat pat fuel rem []
    | none => splitPat pat fuel rest (c :: acc)

/-- Split on a separator pattern (fuel instantiated to the input length). -/
def splitOn (pat : List Char → Option (List Char)) (cs : List Char) :
    List (List Char) :=
  splitPat pat (cs.length + 1) cs []

/-- The ring separator `/\)\s*,\s*\(/`. -/
def ringSep (cs : List Char) : Option (List Char) :=
  match cs with
  | ')' :: r1 =>
    match r1.dropWhile isWsChar with
    | ',' :: r2 =>
      match r2.dropWhile isWsChar with
      | '(' :: r3 => some r3
      | _ => none
    | _ => none
  | _ => none

/-- The polygon separator `/\)\s*\)\s*,\s*\(\s*\(/`. -/
def polySep (cs : List Char) : Option (List Char) :=
  match cs with
  | ')' :: r1 =>
    match r1.dropWhile isWsChar with
    | ')' :: r2 =>
      match r2.dropWhile isWsChar with
      | ',' :: r3 =>
        match r3.dropWhile isWsChar with
        | '(' :: r4 =>
          match r4.dropWhile isWsChar with
          | '(' :: r5 => some r5
          | _ => none
        | _ => none
      | _ => none
    | _ => none
  | _ => none

/-- Leftmost position where a pattern matches; returns the remainder after
    the match (the unanchored part of the source regexes). -/
def scanFor (m : List Char → Option (List Char)) : List Char → Option (List Char)
  | [] => none
  | c :: rest =>
    match m (c :: rest) with
    | some r => some r
    | none => scanFor m rest

/-- Index of the last occurrence of `))`. -/
def lastDP : List Char → Option ℕ
  | c1 :: c2 :: rest =>
    (match lastDP (c2 :: rest) with
     | some j => some (j + 1)
     | none => if c1 == ')' && c2 == ')' then some 0 else none)
  | _ => none

/-- Index of the last occurrence of `)))`. -/
def lastTP : List Char → Option ℕ
  | c1 :: c2 :: c3 :: rest =>
    (match lastTP (c2 :: c3 :: rest) with
     | some j => some (j + 1)
     | none => if c1 == ')' && c2 == ')' && c3 == ')' then some 0 else none)
  | _ => none

/-- `POLYGON\s*\(\(` (case-insensitive) at the current position. -/
def polyOpen (cs : List Char) : Option (List Char) :=
  (matchCI "POLYGON".data cs).bind fun r =>
    match r.dropWhile isWsChar with
    | '(' :: '(' :: r2 => some r2
    | _ => none

/-- `MULTIPOLYGON\s*\(\(\(` (case-insensitive) at the current position. -/
def mpolyOpen (cs : List Char) : Option (List Char) :=
  (matchCI "MULTIPOLYGON".data cs).bind fun r =>
    match r.dropWhile isWsChar with
    | '(' :: '(' :: '(' :: r2 => some r2
    | _ => none

/-- Group 1 of `wkt.match(/POLYGON\s*\(\((.+)\)\)/i)`: text between the first
    opener and the last `))` after it (nonempty, per `+`). -/
def polygonContent (cs : List Char) : Option (List Char) :=
  (scanFor polyOpen cs).bind fun r =>
    (lastDP r).bind fun i => if 1 ≤ i then some (r.take i) else none

/-- Group 1 of `wkt.match(/MULTIPOLYGON\s*\(\(\((.+)\)\)\)/i)`. -/
def multiPolygonContent (cs : List Char) : Option (List Char) :=
  (scanFor mpolyOpen cs).bind fun r =>
    (lastTP r).bind fun i => if 1 ≤ i then some (r.take i) else none

/-- `Number.isNaN` applied to a destructured slot: `true` only for an actual
    `NaN` value; an absent slot (`undefined`) is *not* `NaN`. -/
def isNaNslot : Option JNum → Bool
  | some .nan => true
  | _ => false

/-- The injected projection (`coordinateTransformer.toWGS84`): a pure
    function of the two parsed tokens (which may be missing or `NaN`). -/
abbrev Projection := Option JNum → Option JNum → Coord

/-- `parseCoordinatePairs(coordinateString)`: strip parentheses, trim, split
    on `,`, split each pair on whitespace, convert with `Number`, check the
    first two slots with `Number.isNaN`, and project. -/
def parseCoordinatePairs (proj : Projection) (coordinateString : List Char) :
    Except String (List Coord) :=
  let cleaned := jsTrimL (coordinateString.filter fun c => !(c == '(' || c == ')'))
  let pairs := splitChar ',' cleaned
  pairs.mapM fun pair =>
    let nums := (splitWs (jsTrimL pair)).map fun t => jsNumber ⟨t⟩
    let x := nums.get? 0
    let y := nums.get? 1
    if isNaNslot x || isNaNslot y then
      .error "Invalid coordinate pair"
    else
      .ok (proj x y)

/-- `parseRings(ringContent)`: split on the ring separator and parse each
    ring's coordinate pairs. -/
def parseRings (proj : Projection) (ringContent : List Char) :
    Except String (List (List Coord)) :=
  (splitOn ringSep ringContent).mapM (parseCoordinatePairs proj)

/-- `parsePolygon(wkt)`. -/
def parsePolygon (proj : Projection) (wkt : String) : Except String Geometry :=
  match polygonContent wkt.data with
  | none => .error "Invalid POLYGON WKT format"
  | some content => (parseRings proj content).map Geometry.polygon

/-- `parseMultiPolygon(wkt)`. -/
def parseMultiPolygon (proj : Projection) (wkt : String) :
    Except String Geometry :=
  match multiPolygonContent wkt.data with
  | none => .error "Invalid MULTIPOLYGON WKT format"
  | some content =>
    ((splitOn polySep content).mapM (parseRings proj)).map Geometry.multiPolygon

/-- `parseWkt(wktString)`: `none` models a non-string argument; the empty
    string and a non-string are both rejected by the `!wktString` guard. -/
def parseWkt (proj : Projection) (wktString : Option String) :
    Except String Geometry :=
  match wktString with
  | none => .error "Invalid WKT: input must be a non-empty string"
  | some s =>
    if s = "" then .error "Invalid WKT: input must be a non-empty string"
    else
      let cleanedWkt := removeSrid s
      match detectGeometryType cleanedWkt with
      | .error e => .error e
      | .ok .polygonT => parsePolygon proj cleanedWkt
      | .ok .multiPolygonT => parseMultiPolygon proj cleanedWkt

/-! #### `extractVertices` -/

/-- The dedup key `` `${coord.lat.toFixed(8)},${coord.lng.toFixed(8)}` ``:
    `toFixed(8)` renders sign(kept even for a rounded-to-zero negative) and
    the value rounded to 8 decimals, ties away from zero toward the larger
    magnitude; two keys are equal iff these four components are equal. -/
def toFixed8key (c : Coord) : Bool × ℤ × Bool × ℤ :=
  (decide (c.lat < 0), round ((if c.lat < 0 then -c.lat else c.lat) * 100000000),
   decide (c.lng < 0), round ((if c.lng < 0 then -c.lng else c.lng) * 100000000))

/-- The `addVertex` closure: state is `(vertices, seen)`, with the `Set` of
    keys modelled as a list used only for membership. -/
def addVertex (st : List Coord × List (Bool × ℤ × Bool × ℤ)) (c : Coord) :
    List Coord × List (Bool × ℤ × Bool × ℤ) :=
  let key := toFixed8key c
  if key ∈ st.2 then st else (st.1 ++ [c], st.2 ++ [key])

/-- The MultiPolygon loop of `extractVertices`: for each sub-polygon, take
    `polygon[0]` (a missing first ring is a runtime `TypeError`, modelled as
    `none`), drop the closing element, and feed the single shared
    `addVertex` state. -/
def extractVerticesMP :
    List (List (List Coord)) → List Coord × List (Bool × ℤ × Bool × ℤ) →
    Option (List Coord × List (Bool × ℤ × Bool × ℤ))
  | [], st => some st
  | polygon :: rest, st =>
    match polygon with
    | [] => none
    | outerRing :: _ => extractVerticesMP rest (outerRing.dropLast.foldl addVertex st)

/-- `extractVertices(geometry)`: outer-ring vertices, closing point dropped,
    deduplicated through one `seen` set for the whole call. -/
def extractVertices : Geometry → Option (List Coord)
  | .polygon coordinates =>
    match coordinates with
    | [] => none
    | outerRing :: _ => some (outerRing.dropLast.foldl addVertex ([], [])).1
  | .multiPolygon coordinates =>
    (extractVerticesMP coordinates ([], [])).map (·.1)

/-! ### Shared export data model -/

/-- A parcel as the exporters read it (`id`, decoded `geometry`, derived
    `vertices`; the raw source text is not consulted by any exporter). -/
structure Parcel where
  id : String
  geometry : Geometry
  vertices : List Coord
  deriving DecidableEq, Repr

/-- The `{includePolygons, includePoints}` options object. -/
structure ExportOptions where
  includePolygons : Bool
  includePoints : Bool
  deriving DecidableEq, Repr

/-- Template-literal interpolation `` `${number}` `` restricted to the
    decimal-exact values this development evaluates it on: sign, integer
    part, and the terminating decimal expansion of the fractional part
    (digit fuel 40; JavaScript prints the shortest round-tripping decimal,
    which coincides on such values). -/
def fracDigitsStr : ℕ → ℚ → String
  | 0, _ => ""
  | fuel + 1, r =>
    if r = 0 then ""
    else
      let d := (Rat.floor (r * 10)).toNat
      toString d ++ fracDigitsStr fuel (r * 10 - Rat.floor (r * 10))

/-- See `fracDigitsStr`. -/
def jsNumToString (q : ℚ) : String :=
  let sign := if q < 0 then "-" else ""
  let a := if q < 0 then -q else q
  let ipart := (Rat.floor a).toNat
  let frac := a - Rat.floor a
  if frac = 0 then sign ++ toString ipart
  else sign ++ toString ipart ++ "." ++ fracDigitsStr 40 frac

/-! ### GeojsonExporter (`generateGeojsonWithLayers`)

Modelled up to JSON serialization: the function's value is the feature list
of the emitted `FeatureCollection` (the `JSON.stringify(·, null, 2)` step is
injective on it, and embeds no further data). -/

/-- A GeoJSON geometry value as produced by `geometryToGeojson` (plus the
    Point geometries built inline for the points layer).  Coordinate pairs
    are `[lng, lat]`. -/
inductive GeoJsonGeom where
  | polygonG (coordinates : List (List (ℚ × ℚ)))
  | multiPolygonG (coordinates : List (List (List (ℚ × ℚ))))
  | pointG (lng lat : ℚ)
  deriving DecidableEq, Repr

/-- `geometryToGeojson(geometry)` (the `return null` fallback of the source
    is unreachable: the geometry tag is always one of the two variants). -/
def geometryToGeojson : Geometry → GeoJsonGeom
  | .polygon coordinates =>
    .polygonG (coordinates.map fun ring => ring.map fun coord => (coord.lng, coord.lat))
  | .multiPolygon coordinates =>
    .multiPolygonG (coordinates.map fun polygon =>
      polygon.map fun ring => ring.map fun coord => (coord.lng, coord.lat))

/-- One feature of the output collection: `properties.parcel_id`, optional
    `properties.point_index`, `properties.layer`, and the geometry (the
    constant `"type": "Feature"` tag carries no data). -/
structure GeoFeature where
  parcelId : String
  pointIndex : Option ℕ
  layer : String
  geometry : GeoJsonGeom
  deriving DecidableEq, Repr

/-- `generateGeojsonWithLayers(parcels, options)`: push polygon features,
    then point features, into one `features` array. -/
def generateGeojsonWithLayers (parcels : List Parcel) (options : ExportOptions) :
    List GeoFeature :=
  let features : List GeoFeature := []
  let features :=
    if options.includePolygons then
      parcels.foldl
        (fun acc parcel =>
          acc ++ [⟨parcel.id, none, "polygons", geometryToGeojson parcel.geometry⟩])
        features
    else features
  if options.includePoints then
    parcels.foldl
      (fun acc parcel =>
        parcel.vertices.enum.foldl
          (fun acc iv =>
            acc ++ [⟨parcel.id, some (iv.1 + 1), "points", .pointG iv.2.lng iv.2.lat⟩])
          acc)
      features
  else features

/-! ### KmlExporter (`generateKmlWithLayers` and helpers) -/

/-- `escapeXml(str)`: the `!str` guard (for a string argument, only `""` is
    falsy), then the five global single-character replacements in source
    order.  `Char.ofNat 39` is the apostrophe. -/
def replaceChar (c : Char) (rep : List Char) (cs : List Char) : List Char :=
  cs.flatMap fun d => if d == c then rep else [d]

/-- See `replaceChar`. -/
def escapeXml (str : String) : String :=
  if str = "" then ""
  else
    let cs := str.data
    let cs := replaceChar '&' "&amp;".data cs
    let cs := replaceChar '<' "&lt;".data cs
    let cs := replaceChar '>' "&gt;".data cs
    let cs := replaceChar '"' "&quot;".data cs
    let cs := replaceChar (Char.ofNat 39) "&apos;".data cs
    ⟨cs⟩

/-- `formatRing` inside `formatCoordinatesForKml`: `"lng,lat,0"` triples
    joined with single spaces. -/
def formatRing (ring : List Coord) : String :=
  String.intercalate " "
    (ring.map fun coord => jsNumToString coord.lng ++ "," ++ jsNumToString coord.lat ++ ",0")

/-- `generatePolygonKml(rings)`: `const [outerRing, ...innerRings] = rings`
    (an empty list interpolates the string `"undefined"`), outer boundary
    followed by the inner boundaries. -/
def generatePolygonKml (rings : List String) : String :=
  let outerRing := match rings with | [] => "undefined" | o :: _ => o
  let innerRings := rings.tail
  "<Polygon>\n        <outerBoundaryIs>\n          <LinearRing>\n            <coordinates>"
    ++ outerRing
    ++ "</coordinates>\n          </LinearRing>\n        </outerBoundaryIs>"
    ++ String.join (innerRings.map fun ring =>
        "\n        <innerBoundaryIs>\n          <LinearRing>\n            <coordinates>"
          ++ ring
          ++ "</coordinates>\n          </LinearRing>\n        </innerBoundaryIs>")
    ++ "\n      </Polygon>"

/-- `generateMultiPolygonKml(polygons)`. -/
def generateMultiPolygonKml (polygons : List (List String)) : String :=
  "<MultiGeometry>" ++ String.join (polygons.map generatePolygonKml) ++ "</MultiGeometry>"

/-- `generateGeometryKml(geometry, formatCoordinatesForKml(geometry))`: the
    source formats first and dispatches second; per branch the composition
    is as below. -/
def generateGeometryKml : Geometry → String
  | .polygon coordinates => generatePolygonKml (coordinates.map formatRing)
  | .multiPolygon coordinates =>
    generateMultiPolygonKml (coordinates.map fun polygon => polygon.map formatRing)

/-- The `polygonPlacemarks` expression of `generateKmlWithLayers` (a named
    top-level definition so the assembled document can be reasoned about;
    the source holds it in a local `const`). -/
def polygonPlacemarksKml (parcels : List Parcel) : String :=
  String.join (parcels.map fun parcel =>
    "\n      <Placemark>\n        <name>" ++ escapeXml parcel.id
      ++ "</name>\n        <description>Działka ewidencyjna: " ++ escapeXml parcel.id
      ++ "</description>\n        <styleUrl>#parcelStyle</styleUrl>\n        "
      ++ generateGeometryKml parcel.geometry
      ++ "\n      </Placemark>")

/-- The `pointPlacemarks` expression of `generateKmlWithLayers` (the source
    `flatMap`s parcels to per-vertex strings and joins once; joining the
    per-parcel joins concatenates the same strings in the same order). -/
def pointPlacemarksKml (parcels : List Parcel) : String :=
  String.join (parcels.map fun parcel =>
    String.join (parcel.vertices.enum.map fun iv =>
      "\n      <Placemark>\n        <name>" ++ escapeXml parcel.id ++ " - Pkt "
        ++ toString (iv.1 + 1)
        ++ "</name>\n        <description>Działka: " ++ escapeXml parcel.id
        ++ ", Punkt " ++ toString (iv.1 + 1)
        ++ "</description>\n        <styleUrl>#pointStyle</styleUrl>\n        <Point>\n          <coordinates>"
        ++ jsNumToString iv.2.lng ++ "," ++ jsNumToString iv.2.lat
        ++ ",0</coordinates>\n        </Point>\n      </Placemark>"))

/-- The `folders` accumulation of `generateKmlWithLayers`: polygons folder
    (iff requested) then points folder (iff requested). -/
def kmlFolders (parcels : List Parcel) (options : ExportOptions) : String :=
  (if options.includePolygons then
    "\n    <Folder>\n      <name>Obrysy działek</name>\n      <description>Obrysy "
      ++ toString parcels.length ++ " działek</description>"
      ++ polygonPlacemarksKml parcels
      ++ "\n    </Folder>"
   else "")
  ++
  (if options.includePoints then
    "\n    <Folder>\n      <name>Punkty graniczne</name>\n      <description>Punkty graniczne "
      ++ toString parcels.length ++ " działek</description>"
      ++ pointPlacemarksKml parcels
      ++ "\n    </Folder>"
   else "")

/-- `generateKmlWithLayers(parcels, options)` with the single
    `new Date().toISOString()` call made an explicit `timestamp` argument. -/
def generateKmlWithLayers (parcels : List Parcel) (options : ExportOptions)
    (timestamp : String) : String :=
  "<?xml version=\"1.0\" encoding=\"UTF-8\"?>\n<kml xmlns=\"http://www.opengis.net/kml/2.2\">\n  <Document>\n    <name>Działki ("
    ++ toString parcels.length
    ++ ")</name>\n    <description>Eksport " ++ toString parcels.length
    ++ " działek - wygenerowano: "
    ++ timestamp
    ++ "</description>\n    <Style id=\"parcelStyle\">\n      <LineStyle>\n        <color>ff2828c6</color>\n        <width>3</width>\n      </LineStyle>\n      <PolyStyle>\n        <color>4d2828c6</color>\n        <fill>1</fill>\n        <outline>1</outline>\n      </PolyStyle>\n    </Style>\n    <Style id=\"pointStyle\">\n      <IconStyle>\n        <color>ff0065e6</color>\n        <scale>0.8</scale>\n        <Icon>\n          <href>http://maps.google.com/mapfiles/kml/shapes/placemark_circle.png</href>\n        </Icon>\n      </IconStyle>\n      <LabelStyle>\n        <scale>0.7</scale>\n      </LabelStyle>\n    </Style>"
    ++ kmlFolders parcels options
    ++ "\n  </Document>\n</kml>"

/-- Everything the KML document emits before the timestamp (a function of
    the parcel list only). -/
def kmlDocPre (parcels : List Parcel) : String :=
  "<?xml version=\"1.0\" encoding=\"UTF-8\"?>\n<kml xmlns=\"http://www.opengis.net/kml/2.2\">\n  <Document>\n    <name>Działki ("
    ++ toString parcels.length
    ++ ")</name>\n    <description>Eksport " ++ toString parcels.length
    ++ " działek - wygenerowano: "

/-- Everything the KML document emits after the timestamp (a function of the
    parcel list and options only). -/
def kmlDocPost (parcels : List Parcel) (options : ExportOptions) : String :=
  "</description>\n    <Style id=\"parcelStyle\">\n      <LineStyle>\n        <color>ff2828c6</color>\n        <width>3</width>\n      </LineStyle>\n      <PolyStyle>\n        <color>4d2828c6</color>\n        <fill>1</fill>\n        <outline>1</outline>\n      </PolyStyle>\n    </Style>\n    <Style id=\"pointStyle\">\n      <IconStyle>\n        <color>ff0065e6</color>\n        <scale>0.8</scale>\n        <Icon>\n          <href>http://maps.google.com/mapfiles/kml/shapes/placemark_circle.png</href>\n        </Icon>\n      </IconStyle>\n      <LabelStyle>\n        <scale>0.7</scale>\n      </LabelStyle>\n    </Style>"
    ++ kmlFolders parcels options
    ++ "\n  </Document>\n</kml>"

/-! ### GeopkgExporter (`generateGpkgWithLayers`)

The SQLite engine is an external collaborator: per the side-effect boundary
the exporter's responsibility is deciding what schema and rows to hand it,
so its value is modelled as the rows written to each table (the fixed
`CREATE TABLE` statements carry no data beyond which tables exist). -/

/-- The one pre-seeded `gpkg_spatial_ref_sys` row. -/
structure SrsRow where
  srsName : String
  srsId : ℤ
  organization : String
  organizationCoordsysId : ℤ
  definition : String
  description : String
  deriving DecidableEq, Repr

/-- A `gpkg_contents` row (columns in table order; `min_x, min_y, max_x,
    max_y` keep the JavaScript fold values, including the untouched
    infinities). -/
structure ContentsRow where
  tableName : String
  dataType : String
  identifier : String
  description : String
  lastChange : String
  minX : JNum
  minY : JNum
  maxX : JNum
  maxY : JNum
  srsId : ℤ
  deriving DecidableEq, Repr

/-- A `gpkg_geometry_columns` row. -/
structure GeomColRow where
  tableName : String
  columnName : String
  geometryTypeName : String
  srsId : ℤ
  z : ℕ
  m : ℕ
  deriving DecidableEq, Repr

/-- A row of the conditional `polygons` table (`fid` is the AUTOINCREMENT
    key, 1-based in insertion order). -/
structure PolygonRow where
  fid : ℕ
  parcelId : String
  geom : List GByte
  deriving DecidableEq, Repr

/-- A row of the conditional `points` table. -/
structure PointRow where
  fid : ℕ
  parcelId : String
  pointIndex : ℕ
  geom : List GByte
  deriving DecidableEq, Repr

/-- The produced GeoPackage, as rows per table; a conditional table that was
    not created is `none`. -/
structure GpkgDb where
  spatialRefSys : List SrsRow
  contents : List ContentsRow
  geometryColumns : List GeomColRow
  polygonRows : Option (List PolygonRow)
  pointRows : Option (List PointRow)
  deriving DecidableEq, Repr

/-- The WGS84 definition text inserted into `gpkg_spatial_ref_sys`. -/
def wgs84Definition : String :=
  "GEOGCS[\"WGS 84\",DATUM[\"WGS_1984\",SPHEROID[\"WGS 84\",6378137,298.257223563]],PRIMEM[\"Greenwich\",0],UNIT[\"degree\",0.0174532925199433]]"

/-- The raw `parcel.geometry.coordinates` array exactly as
    `generateGpkgWithLayers` hands it to `createPolygonGpb`: for a POLYGON a
    list of rings; for a MULTIPOLYGON a list of sub-polygons, each of which
    is an *array of rings* and is therefore consumed as if it were a ring
    whose "coordinates" are themselves arrays. -/
def Geometry.dynCoordinates : Geometry → List (List JCoord)
  | .polygon coordinates => ringsToJ coordinates
  | .multiPolygon coordinates =>
    coordinates.map fun polygon => polygon.map fun ring => JCoord.a (ring.map JCoord.c)

/-- The per-layer running-bounds fold of `generateGpkgWithLayers` (same
    comparison chain as the envelope fold of `createPolygonGpb`). -/
def layerBounds (coordLists : List (List JCoord)) : Envelope :=
  coordLists.foldl (fun st ring => ring.foldl envStep st)
    ⟨.posInf, .negInf, .posInf, .negInf⟩

/-- `generateGpkgWithLayers(parcels, options)`, with the single
    `new Date().toISOString()` made an explicit `timestamp` argument.
    Core tables are created unconditionally; the `polygons` and `points`
    tables, their rows, and their registry rows only when requested. -/
def generateGpkgWithLayers (parcels : List Parcel) (options : ExportOptions)
    (timestamp : String) : GpkgDb :=
  let srs : List SrsRow :=
    [⟨"WGS 84", 4326, "EPSG", 4326, wgs84Definition, "WGS 84 geodetic"⟩]
  let polyPart :
      Option (List PolygonRow) × List ContentsRow × List GeomColRow :=
    if options.includePolygons then
      let rows := parcels.enum.map fun ip =>
        PolygonRow.mk (ip.1 + 1) ip.2.id
          (createPolygonGpb ip.2.geometry.dynCoordinates 4326)
      let b := layerBounds (parcels.map (·.geometry.dynCoordinates)).flatten
      (some rows,
       [⟨"polygons", "features", "polygons", "Obrysy działek", timestamp,
         b.minX, b.minY, b.maxX, b.maxY, 4326⟩],
       [⟨"polygons", "geom", "POLYGON", 4326, 0, 0⟩])
    else (none, [], [])
  let pointPart :
      Option (List PointRow) × List ContentsRow × List GeomColRow :=
    if options.includePoints then
      let flat := (parcels.map fun parcel =>
        parcel.vertices.enum.map fun iv =>
          (parcel.id, iv.1 + 1, createPointGpb iv.2.lng iv.2.lat 4326)).flatten
      let rows := flat.enum.map fun ir =>
        PointRow.mk (ir.1 + 1) ir.2.1 ir.2.2.1 ir.2.2.2
      let b := layerBounds (parcels.map fun parcel =>
        parcel.vertices.map JCoord.c)
      (some rows,
       [⟨"points", "features", "points", "Punkty graniczne działek", timestamp,
         b.minX, b.minY, b.maxX, b.maxY, 4326⟩],
       [⟨"points", "geom", "POINT", 4326, 0, 0⟩])
    else (none, [], [])
  { spatialRefSys := srs
    contents := polyPart.2.1 ++ pointPart.2.1
    geometryColumns := polyPart.2.2 ++ pointPart.2.2
    polygonRows := polyPart.1
    pointRows := pointPart.1 }

/-- `setGpkgTimestamp t db`: the database with every contents-registry
    `last_change` field replaced by `t` (used to state that two exports
    differ only in the embedded timestamp). -/
def setGpkgTimestamp (t : String) (db : GpkgDb) : GpkgDb :=
  { db with contents := db.contents.map fun row => { row with lastChange := t } }

/-! ### Specification-side descriptions of the binary layout

These follow the wording of the spec (concatenation of fixed fields), to be
proved equal to the `DataView`-offset implementations above. -/

/-- The spec's header layout: magic `G`,`P`, version 0, flag byte 3 when an
    envelope is present (bit 0 endianness, bits 1-3 envelope type 1) else 1,
    int32 srsId little-endian, then minX, maxX, minY, maxY as float64s. -/
def gpbHeaderSpec (srsId : ℤ) (envelope : Option Envelope) : List GByte :=
  [.u8 0x47, .u8 0x50, .u8 0, .u8 (if envelope.isSome then 3 else 1)]
    ++ i32chunk srsId
    ++ (match envelope with
        | none => []
        | some e => f64chunk e.minX ++ f64chunk e.maxX ++ f64chunk e.minY
            ++ f64chunk e.maxY)

/-- The spec's WKB point layout: byte-order flag 1, type code 1, X =
    longitude, Y = latitude. -/
def wkbPointSpec (lng lat : ℚ) : List GByte :=
  [.u8 1] ++ u32chunk 1 ++ f64chunk (.fin lng) ++ f64chunk (.fin lat)

/-- One coordinate of the spec's polygon payload: X then Y. -/
def coordChunk (coord : JCoord) : List GByte :=
  f64chunk coord.lng ++ f64chunk coord.lat

/-- One ring of the spec's polygon payload: uint32 point count followed by
    the coordinates in ring order. -/
def ringChunk (ring : List JCoord) : List GByte :=
  u32chunk ring.length ++ (ring.map coordChunk).flatten

/-- The spec's WKB polygon layout: byte-order flag 1, type code 3, uint32
    ring count, then the rings in order. -/
def wkbPolygonSpec (rings : List (List JCoord)) : List GByte :=
  [.u8 1] ++ u32chunk 3 ++ u32chunk rings.length ++ (rings.map ringChunk).flatten

/-- The minimum of a list of rationals (`none` on the empty list). -/
def listMin : List ℚ → Option ℚ
  | [] => none
  | x :: xs => some (xs.foldl min x)

/-- The maximum of a list of rationals (`none` on the empty list). -/
def listMax : List ℚ → Option ℚ
  | [] => none
  | x :: xs => some (xs.foldl max x)

/-! ### Buffer-write machinery -/

theorem length_u32chunk (n : ℕ) : (u32chunk n).length = 4 := rfl

theorem length_f64chunk (v : JNum) : (f64chunk v).length = 8 := rfl

theorem length_zeros (n : ℕ) : (zeros n).length = n := List.length_replicate n _

theorem drop_zeros (m n : ℕ) : (zeros n).drop m = zeros (n - m) := by
  simp [zeros, List.drop_replicate]

theorem length_coordChunk (coord : JCoord) : (coordChunk coord).length = 16 := rfl

theorem length_flatten_coordChunk (ring : List JCoord) :
    ((ring.map coordChunk).flatten).length = 16 * ring.length := by
  induction ring with
  | nil => rfl
  | cons c cs ih =>
    simp only [List.map_cons, List.flatten_cons, List.length_append,
      length_coordChunk, ih, List.length_cons]
    omega

theorem length_ringChunk (ring : List JCoord) :
    (ringChunk ring).length = 4 + 16 * ring.length := by
  simp only [ringChunk, List.length_append, length_u32chunk,
    length_flatten_coordChunk]

/-- Setting the element just past `done` in `done ++ p :: ps`. -/
theorem set_append_len (done : List GByte) (b p : GByte) (ps : List GByte) :
    (done ++ p :: ps).set done.length b = done ++ b :: ps := by
  induction done with
  | nil => rfl
  | cons d ds ih => simp [ih]

/-- Writing a chunk at the boundary between a settled prefix and enough
    remaining bytes replaces the first `chunk.length` remaining bytes. -/
theorem writeChunk_fill :
    ∀ chunk done pad : List GByte, chunk.length ≤ pad.length →
      writeChunk (done ++ pad) done.length chunk =
        done ++ chunk ++ pad.drop chunk.length := by
  intro chunk
  induction chunk with
  | nil => intro done pad h; simp [writeChunk]
  | cons b bs ih =>
    intro done pad h
    match pad with
    | [] => simp at h
    | p :: ps =>
      show writeChunk ((done ++ p :: ps).set done.length b) (done.length + 1) bs = _
      rw [set_append_len]
      have h2 : bs.length ≤ ps.length := by simpa using h
      have key := ih (done ++ [b]) ps h2
      simp only [List.length_append, List.length_singleton, List.append_assoc,
        List.singleton_append] at key
      simpa using key

/-- Restated with an explicit offset, for rewriting at literal offsets. -/
theorem writeChunk_fill' (chunk done pad : List GByte) (off : ℕ)
    (hoff : off = done.length) (h : chunk.length ≤ pad.length) :
    writeChunk (done ++ pad) off chunk =
      done ++ chunk ++ pad.drop chunk.length := by
  subst hoff; exact writeChunk_fill chunk done pad h

/-- `Uint8Array.set`-based concatenation really is concatenation. -/
theorem concatBufs_eq (header wkb : List GByte) :
    concatBufs header wkb = header ++ wkb := by
  unfold concatBufs
  have h1 : writeChunk (zeros (header.length + wkb.length)) 0 header =
      header ++ zeros wkb.length := by
    have := writeChunk_fill' header [] (zeros (header.length + wkb.length)) 0
      rfl (by simp [length_zeros])
    simpa [drop_zeros] using this
  rw [h1]
  have h2 := writeChunk_fill' wkb header (zeros wkb.length) header.length rfl
    (by simp [length_zeros])
  simpa [drop_zeros, zeros] using h2


/-- One coordinate write appends `coordChunk`. -/
theorem wkbCoordWrite_spec (coord : JCoord) (done pad : List GByte)
    (h : 16 ≤ pad.length) :
    wkbCoordWrite (done ++ pad, done.length) coord =
      (done ++ coordChunk coord ++ pad.drop 16, done.length + 16) := by
  unfold wkbCoordWrite
  rw [writeChunk_fill' (f64chunk coord.lng) done pad done.length rfl
    (by simp only [length_f64chunk]; omega)]
  dsimp only
  rw [writeChunk_fill' (f64chunk coord.lat) (done ++ f64chunk coord.lng)
    (pad.drop (f64chunk coord.lng).length)
    (done.length + 8)
    (by simp [length_f64chunk])
    (by simp only [List.length_drop, length_f64chunk]; omega)]
  simp only [coordChunk, length_f64chunk, List.drop_drop, List.append_assoc,
    Prod.mk.injEq]

/-- Folding the coordinate writes over a ring appends the ring's
    coordinate bytes. -/
theorem wkbCoordFold_spec (coords : List JCoord) :
    ∀ done pad : List GByte, 16 * coords.length ≤ pad.length →
      coords.foldl wkbCoordWrite (done ++ pad, done.length) =
        (done ++ (coords.map coordChunk).flatten ++ pad.drop (16 * coords.length),
         done.length + 16 * coords.length) := by
  induction coords with
  | nil => intro done pad h; simp
  | cons c cs ih =>
    intro done pad h
    have hlen : (16 : ℕ) ≤ pad.length := by
      simp [List.length_cons] at h; omega
    rw [List.foldl_cons, wkbCoordWrite_spec c done pad hlen]
    have h2 : 16 * cs.length ≤ (pad.drop 16).length := by
      simp [List.length_drop, List.length_cons] at h ⊢; omega
    have key := ih (done ++ coordChunk c) (pad.drop 16) h2
    rw [List.append_assoc] at key ⊢
    have hoff : done.length + 16 = (done ++ coordChunk c).length := by
      simp [length_coordChunk]
    rw [hoff, key]
    simp only [List.map_cons, List.flatten_cons, List.append_assoc,
      List.drop_drop, List.length_append, length_coordChunk, List.length_cons,
      Prod.mk.injEq]
    refine ⟨?_, by omega⟩
    have e1 : 16 + 16 * cs.length = 16 * (cs.length + 1) := by omega
    rw [e1]

/-- One ring write appends `ringChunk`. -/
theorem wkbRingWrite_spec (ring : List JCoord) (done pad : List GByte)
    (h : 4 + 16 * ring.length ≤ pad.length) :
    wkbRingWrite (done ++ pad, done.length) ring =
      (done ++ ringChunk ring ++ pad.drop (4 + 16 * ring.length),
       done.length + (4 + 16 * ring.length)) := by
  unfold wkbRingWrite
  rw [writeChunk_fill' (u32chunk ring.length) done pad done.length rfl
    (by simp only [length_u32chunk]; omega)]
  simp only [length_u32chunk]
  have h2 : 16 * ring.length ≤ (pad.drop 4).length := by
    simp only [List.length_drop]; omega
  have hoff : done.length + 4 = (done ++ u32chunk ring.length).length := by
    simp [length_u32chunk]
  rw [hoff, wkbCoordFold_spec ring (done ++ u32chunk ring.length) (pad.drop 4) h2]
  simp only [ringChunk, List.append_assoc, List.drop_drop, List.length_append,
    length_u32chunk, Prod.mk.injEq]
  exact ⟨trivial, by omega⟩

/-- Folding the ring writes appends the whole polygon body. -/
theorem wkbRingFold_spec (rings : List (List JCoord)) :
    ∀ done pad : List GByte, ((rings.map ringChunk).flatten).length ≤ pad.length →
      rings.foldl wkbRingWrite (done ++ pad, done.length) =
        (done ++ (rings.map ringChunk).flatten
           ++ pad.drop ((rings.map ringChunk).flatten).length,
         done.length + ((rings.map ringChunk).flatten).length) := by
  induction rings with
  | nil => intro done pad h; simp
  | cons r rs ih =>
    intro done pad h
    simp only [List.map_cons, List.flatten_cons, List.length_append,
      length_ringChunk] at h ⊢
    have hr : 4 + 16 * r.length ≤ pad.length := by omega
    rw [List.foldl_cons, wkbRingWrite_spec r done pad hr]
    have h2 : ((rs.map ringChunk).flatten).length ≤
        (pad.drop (4 + 16 * r.length)).length := by
      simp only [List.length_drop]; omega
    have hoff : done.length + (4 + 16 * r.length) = (done ++ ringChunk r).length := by
      simp [length_ringChunk]
    rw [hoff, ih (done ++ ringChunk r) (pad.drop (4 + 16 * r.length)) h2]
    simp only [List.append_assoc, List.drop_drop, List.length_append,
      length_ringChunk, Prod.mk.injEq]
    exact ⟨trivial, by omega⟩

theorem length_u8chunk (n : ℕ) : (u8chunk n).length = 1 := rfl

theorem length_i32chunk (z : ℤ) : (i32chunk z).length = 4 := rfl

/-- Writing into a fresh buffer at offset 0. -/
theorem writeChunk_zeros (chunk : List GByte) (m : ℕ) (h : chunk.length ≤ m) :
    writeChunk (zeros m) 0 chunk = chunk ++ zeros (m - chunk.length) := by
  have := writeChunk_fill' chunk [] (zeros m) 0 rfl (by simp [length_zeros, h])
  simpa [drop_zeros] using this

/-- Writing at the boundary of a settled prefix followed by fresh bytes. -/
theorem writeChunk_at (done : List GByte) (m : ℕ) (chunk : List GByte) (off : ℕ)
    (hoff : off = done.length) (h : chunk.length ≤ m) :
    writeChunk (done ++ zeros m) off chunk =
      (done ++ chunk) ++ zeros (m - chunk.length) := by
  rw [writeChunk_fill' chunk done (zeros m) off hoff (by simp [length_zeros, h])]
  simp [drop_zeros, List.append_assoc]

/-- The offset-arithmetic point encoder produces the spec's layout. -/
theorem pointToWkb_eq (lng lat : ℚ) : pointToWkb lng lat = wkbPointSpec lng lat := by
  simp only [pointToWkb]
  have s1 : writeChunk (zeros 21) 0 (u8chunk 1) = u8chunk 1 ++ zeros 20 := by
    simpa [length_u8chunk] using writeChunk_zeros (u8chunk 1) 21 (by simp [length_u8chunk])
  have s2 : writeChunk (u8chunk 1 ++ zeros 20) 1 (u32chunk 1) =
      (u8chunk 1 ++ u32chunk 1) ++ zeros 16 := by
    simpa [length_u32chunk] using writeChunk_at (u8chunk 1) 20 (u32chunk 1) 1
      (by simp [length_u8chunk]) (by simp [length_u32chunk])
  have s3 : writeChunk ((u8chunk 1 ++ u32chunk 1) ++ zeros 16) 5
      (f64chunk (.fin lng)) =
      ((u8chunk 1 ++ u32chunk 1) ++ f64chunk (.fin lng)) ++ zeros 8 := by
    simpa [length_f64chunk] using writeChunk_at (u8chunk 1 ++ u32chunk 1) 16
      (f64chunk (.fin lng)) 5 (by simp [length_u8chunk, length_u32chunk])
      (by simp [length_f64chunk])
  have s4 : writeChunk (((u8chunk 1 ++ u32chunk 1) ++ f64chunk (.fin lng)) ++ zeros 8)
      13 (f64chunk (.fin lat)) =
      (((u8chunk 1 ++ u32chunk 1) ++ f64chunk (.fin lng)) ++ f64chunk (.fin lat))
        ++ zeros 0 := by
    simpa [length_f64chunk] using
      writeChunk_at ((u8chunk 1 ++ u32chunk 1) ++ f64chunk (.fin lng)) 8
        (f64chunk (.fin lat)) 13
        (by simp [length_u8chunk, length_u32chunk, length_f64chunk])
        (by simp [length_f64chunk])
  rw [s1, s2, s3, s4]
  simp [wkbPointSpec, u8chunk, zeros, List.append_assoc]

/-- The offset-arithmetic header encoder produces the spec's layout. -/
theorem createGpbHeader_eq (srsId : ℤ) (envelope : Option Envelope) :
    createGpbHeader srsId envelope = gpbHeaderSpec srsId envelope := by
  have hflag1 : ((1 <<< 1) ||| 0x01 : ℕ) = 3 := by decide
  have hflag0 : ((0 <<< 1) ||| 0x01 : ℕ) = 1 := by decide
  cases envelope with
  | none =>
    show writeChunk (writeChunk (writeChunk (writeChunk (writeChunk (zeros 8) 0
        (u8chunk 0x47)) 1 (u8chunk 0x50)) 2 (u8chunk 0)) 3
        (u8chunk ((0 <<< 1) ||| 0x01))) 4 (i32chunk srsId) = _
    rw [hflag0]
    have s1 : writeChunk (zeros 8) 0 (u8chunk 0x47) = u8chunk 0x47 ++ zeros 7 := by
      simpa [length_u8chunk] using writeChunk_zeros (u8chunk 0x47) 8
        (by simp [length_u8chunk])
    have s2 : writeChunk (u8chunk 0x47 ++ zeros 7) 1 (u8chunk 0x50) =
        (u8chunk 0x47 ++ u8chunk 0x50) ++ zeros 6 := by
      simpa [length_u8chunk] using writeChunk_at (u8chunk 0x47) 7 (u8chunk 0x50) 1
        (by simp [length_u8chunk]) (by simp [length_u8chunk])
    have s3 : writeChunk ((u8chunk 0x47 ++ u8chunk 0x50) ++ zeros 6) 2 (u8chunk 0) =
        ((u8chunk 0x47 ++ u8chunk 0x50) ++ u8chunk 0) ++ zeros 5 := by
      simpa [length_u8chunk] using
        writeChunk_at (u8chunk 0x47 ++ u8chunk 0x50) 6 (u8chunk 0) 2
          (by simp [length_u8chunk]) (by simp [length_u8chunk])
    have s4 : writeChunk (((u8chunk 0x47 ++ u8chunk 0x50) ++ u8chunk 0) ++ zeros 5) 3
        (u8chunk 1) =
        (((u8chunk 0x47 ++ u8chunk 0x50) ++ u8chunk 0) ++ u8chunk 1) ++ zeros 4 := by
      simpa [length_u8chunk] using
        writeChunk_at ((u8chunk 0x47 ++ u8chunk 0x50) ++ u8chunk 0) 5 (u8chunk 1) 3
          (by simp [length_u8chunk]) (by simp [length_u8chunk])
    have s5 : writeChunk
        ((((u8chunk 0x47 ++ u8chunk 0x50) ++ u8chunk 0) ++ u8chunk 1) ++ zeros 4) 4
        (i32chunk srsId) =
        ((((u8chunk 0x47 ++ u8chunk 0x50) ++ u8chunk 0) ++ u8chunk 1)
          ++ i32chunk srsId) ++ zeros 0 := by
      simpa [length_i32chunk] using
        writeChunk_at (((u8chunk 0x47 ++ u8chunk 0x50) ++ u8chunk 0) ++ u8chunk 1) 4
          (i32chunk srsId) 4 (by simp [length_u8chunk]) (by simp [length_i32chunk])
    rw [s1, s2, s3, s4, s5]
    simp [gpbHeaderSpec, u8chunk, zeros, List.append_assoc]
  | some e =>
    show writeChunk (writeChunk (writeChunk (writeChunk (writeChunk (writeChunk
        (writeChunk (writeChunk (writeChunk (zeros 40) 0 (u8chunk 0x47)) 1
        (u8chunk 0x50)) 2 (u8chunk 0)) 3 (u8chunk ((1 <<< 1) ||| 0x01))) 4
        (i32chunk srsId)) 8 (f64chunk e.minX)) 16 (f64chunk e.maxX)) 24
        (f64chunk e.minY)) 32 (f64chunk e.maxY) = _
    rw [hflag1]
    have s1 : writeChunk (zeros 40) 0 (u8chunk 0x47) = u8chunk 0x47 ++ zeros 39 := by
      simpa [length_u8chunk] using writeChunk_zeros (u8chunk 0x47) 40
        (by simp [length_u8chunk])
    have s2 : writeChunk (u8chunk 0x47 ++ zeros 39) 1 (u8chunk 0x50) =
        (u8chunk 0x47 ++ u8chunk 0x50) ++ zeros 38 := by
      simpa [length_u8chunk] using writeChunk_at (u8chunk 0x47) 39 (u8chunk 0x50) 1
        (by simp [length_u8chunk]) (by simp [length_u8chunk])
    have s3 : writeChunk ((u8chunk 0x47 ++ u8chunk 0x50) ++ zeros 38) 2 (u8chunk 0) =
        ((u8chunk 0x47 ++ u8chunk 0x50) ++ u8chunk 0) ++ zeros 37 := by
      simpa [length_u8chunk] using
        writeChunk_at (u8chunk 0x47 ++ u8chunk 0x50) 38 (u8chunk 0) 2
          (by simp [length_u8chunk]) (by simp [length_u8chunk])
    have s4 : writeChunk (((u8chunk 0x47 ++ u8chunk 0x50) ++ u8chunk 0) ++ zeros 37) 3
        (u8chunk 3) =
        (((u8chunk 0x47 ++ u8chunk 0x50) ++ u8chunk 0) ++ u8chunk 3) ++ zeros 36 := by
      simpa [length_u8chunk] using
        writeChunk_at ((u8chunk 0x47 ++ u8chunk 0x50) ++ u8chunk 0) 37 (u8chunk 3) 3
          (by simp [length_u8chunk]) (by simp [length_u8chunk])
    have s5 : writeChunk
        ((((u8chunk 0x47 ++ u8chunk 0x50) ++ u8chunk 0) ++ u8chunk 3) ++ zeros 36) 4
        (i32chunk srsId) =
        ((((u8chunk 0x47 ++ u8chunk 0x50) ++ u8chunk 0) ++ u8chunk 3)
          ++ i32chunk srsId) ++ zeros 32 := by
      simpa [length_i32chunk] using
        writeChunk_at (((u8chunk 0x47 ++ u8chunk 0x50) ++ u8chunk 0) ++ u8chunk 3) 36
          (i32chunk srsId) 4 (by simp [length_u8chunk]) (by simp [length_i32chunk])
    have s6 : writeChunk
        (((((u8chunk 0x47 ++ u8chunk 0x50) ++ u8chunk 0) ++ u8chunk 3)
          ++ i32chunk srsId) ++ zeros 32) 8 (f64chunk e.minX) =
        (((((u8chunk 0x47 ++ u8chunk 0x50) ++ u8chunk 0) ++ u8chunk 3)
          ++ i32chunk srsId) ++ f64chunk e.minX) ++ zeros 24 := by
      simpa [length_f64chunk] using
        writeChunk_at ((((u8chunk 0x47 ++ u8chunk 0x50) ++ u8chunk 0) ++ u8chunk 3)
          ++ i32chunk srsId) 32 (f64chunk e.minX) 8
          (by simp [length_u8chunk, length_i32chunk]) (by simp [length_f64chunk])
    have s7 : writeChunk
        ((((((u8chunk 0x47 ++ u8chunk 0x50) ++ u8chunk 0) ++ u8chunk 3)
          ++ i32chunk srsId) ++ f64chunk e.minX) ++ zeros 24) 16 (f64chunk e.maxX) =
        ((((((u8chunk 0x47 ++ u8chunk 0x50) ++ u8chunk 0) ++ u8chunk 3)
          ++ i32chunk srsId) ++ f64chunk e.minX) ++ f64chunk e.maxX) ++ zeros 16 := by
      simpa [length_f64chunk] using
        writeChunk_at (((((u8chunk 0x47 ++ u8chunk 0x50) ++ u8chunk 0) ++ u8chunk 3)
          ++ i32chunk srsId) ++ f64chunk e.minX) 24 (f64chunk e.maxX) 16
          (by simp [length_u8chunk, length_i32chunk, length_f64chunk])
          (by simp [length_f64chunk])
    have s8 : writeChunk
        (((((((u8chunk 0x47 ++ u8chunk 0x50) ++ u8chunk 0) ++ u8chunk 3)
          ++ i32chunk srsId) ++ f64chunk e.minX) ++ f64chunk e.maxX) ++ zeros 16) 24
        (f64chunk e.minY) =
        (((((((u8chunk 0x47 ++ u8chunk 0x50) ++ u8chunk 0) ++ u8chunk 3)
          ++ i32chunk srsId) ++ f64chunk e.minX) ++ f64chunk e.maxX)
          ++ f64chunk e.minY) ++ zeros 8 := by
      simpa [length_f64chunk] using
        writeChunk_at ((((((u8chunk 0x47 ++ u8chunk 0x50) ++ u8chunk 0) ++ u8chunk 3)
          ++ i32chunk srsId) ++ f64chunk e.minX) ++ f64chunk e.maxX) 16
          (f64chunk e.minY) 24
          (by simp [length_u8chunk, length_i32chunk, length_f64chunk])
          (by simp [length_f64chunk])
    have s9 : writeChunk
        ((((((((u8chunk 0x47 ++ u8chunk 0x50) ++ u8chunk 0) ++ u8chunk 3)
          ++ i32chunk srsId) ++ f64chunk e.minX) ++ f64chunk e.maxX)
          ++ f64chunk e.minY) ++ zeros 8) 32 (f64chunk e.maxY) =
        ((((((((u8chunk 0x47 ++ u8chunk 0x50) ++ u8chunk 0) ++ u8chunk 3)
          ++ i32chunk srsId) ++ f64chunk e.minX) ++ f64chunk e.maxX)
          ++ f64chunk e.minY) ++ f64chunk e.maxY) ++ zeros 0 := by
      simpa [length_f64chunk] using
        writeChunk_at (((((((u8chunk 0x47 ++ u8chunk 0x50) ++ u8chunk 0) ++ u8chunk 3)
          ++ i32chunk srsId) ++ f64chunk e.minX) ++ f64chunk e.maxX)
          ++ f64chunk e.minY) 8 (f64chunk e.maxY) 32
          (by simp [length_u8chunk, length_i32chunk, length_f64chunk])
          (by simp [length_f64chunk])
    rw [s1, s2, s3, s4, s5, s6, s7, s8, s9]
    simp [gpbHeaderSpec, u8chunk, zeros, List.append_assoc]

/-- The total-size fold of `polygonToWkb` computes 9 plus the body length. -/
theorem polygonToWkb_size (rings : List (List JCoord)) :
    ∀ n : ℕ, rings.foldl (fun acc ring => acc + (4 + ring.length * 16)) n =
      n + ((rings.map ringChunk).flatten).length := by
  induction rings with
  | nil => intro n; simp
  | cons r rs ih =>
    intro n
    rw [List.foldl_cons, ih]
    simp only [List.map_cons, List.flatten_cons, List.length_append,
      length_ringChunk]
    omega

/-- The offset-arithmetic polygon encoder produces the spec's layout. -/
theorem polygonToWkb_eq (rings : List (List JCoord)) :
    polygonToWkb rings = wkbPolygonSpec rings := by
  simp only [polygonToWkb]
  rw [polygonToWkb_size rings 9]
  set L := ((rings.map ringChunk).flatten).length with hL
  have s1 : writeChunk (zeros (9 + L)) 0 (u8chunk 1) = u8chunk 1 ++ zeros (8 + L) := by
    rw [writeChunk_zeros (u8chunk 1) (9 + L) (by simp only [length_u8chunk]; omega)]
    rw [show (9 + L) - (u8chunk 1).length = 8 + L from by
      simp only [length_u8chunk]; omega]
  have s2 : writeChunk (u8chunk 1 ++ zeros (8 + L)) 1 (u32chunk 3) =
      (u8chunk 1 ++ u32chunk 3) ++ zeros (4 + L) := by
    have h := writeChunk_at (u8chunk 1) (8 + L) (u32chunk 3) 1
      (by simp [length_u8chunk]) (by simp only [length_u32chunk]; omega)
    rw [show (8 + L) - (u32chunk 3).length = 4 + L from by
      simp only [length_u32chunk]; omega] at h
    exact h
  have s3 : writeChunk ((u8chunk 1 ++ u32chunk 3) ++ zeros (4 + L)) 5
      (u32chunk rings.length) =
      ((u8chunk 1 ++ u32chunk 3) ++ u32chunk rings.length) ++ zeros L := by
    have h := writeChunk_at (u8chunk 1 ++ u32chunk 3) (4 + L)
      (u32chunk rings.length) 5
      (by simp [length_u8chunk, length_u32chunk])
      (by simp only [length_u32chunk]; omega)
    rw [show (4 + L) - (u32chunk rings.length).length = L from by
      simp only [length_u32chunk]; omega] at h
    exact h
  rw [s1, s2, s3]
  show (rings.foldl wkbRingWrite
      (((u8chunk 1 ++ u32chunk 3) ++ u32chunk rings.length) ++ zeros L,
       (((u8chunk 1 ++ u32chunk 3) ++ u32chunk rings.length) : List GByte).length)).1 =
    wkbPolygonSpec rings
  rw [wkbRingFold_spec rings ((u8chunk 1 ++ u32chunk 3) ++ u32chunk rings.length)
    (zeros L) (by simp [length_zeros, hL])]
  simp [wkbPolygonSpec, u8chunk, drop_zeros, zeros, List.append_assoc, hL]

/-- `createPointGpb` is header-then-payload concatenation. -/
theorem createPointGpb_eq (lng lat : ℚ) (srsId : ℤ) :
    createPointGpb lng lat srsId =
      createGpbHeader srsId (some ⟨.fin lng, .fin lng, .fin lat, .fin lat⟩)
        ++ pointToWkb lng lat := by
  simp only [createPointGpb]
  exact concatBufs_eq _ _

/-- `createPolygonGpb` is header-then-payload concatenation, with the header
    carrying the fold-computed envelope. -/
theorem createPolygonGpb_eq (rings : List (List JCoord)) (srsId : ℤ) :
    createPolygonGpb rings srsId =
      createGpbHeader srsId (some (computeEnvelope rings)) ++ polygonToWkb rings := by
  simp only [createPolygonGpb]
  exact concatBufs_eq _ _

/-! ### Envelope fold = minimum/maximum -/

/-- The four fields of one envelope step, written out. -/
theorem envStep_fields (st : Envelope) (coord : JCoord) :
    envStep st coord =
      ⟨if jlt coord.lng st.minX then coord.lng else st.minX,
       if jlt st.maxX coord.lng then coord.lng else st.maxX,
       if jlt coord.lat st.minY then coord.lat else st.minY,
       if jlt st.maxY coord.lat then coord.lat else st.maxY⟩ := by
  unfold envStep
  by_cases h1 : jlt coord.lng st.minX <;> by_cases h2 : jlt st.maxX coord.lng <;>
    by_cases h3 : jlt coord.lat st.minY <;> by_cases h4 : jlt st.maxY coord.lat <;>
    simp [h1, h2, h3, h4]

/-- Projections of the envelope fold are scalar folds. -/
theorem envFold_minX (cs : List JCoord) :
    ∀ st : Envelope, (cs.foldl envStep st).minX =
      cs.foldl (fun m c => if jlt (JCoord.lng c) m then JCoord.lng c else m) st.minX := by
  induction cs with
  | nil => intro st; rfl
  | cons c cs ih =>
    intro st
    rw [List.foldl_cons, List.foldl_cons, envStep_fields, ih]

/-- See `envFold_minX`. -/
theorem envFold_maxX (cs : List JCoord) :
    ∀ st : Envelope, (cs.foldl envStep st).maxX =
      cs.foldl (fun m c => if jlt m (JCoord.lng c) then JCoord.lng c else m) st.maxX := by
  induction cs with
  | nil => intro st; rfl
  | cons c cs ih =>
    intro st
    rw [List.foldl_cons, List.foldl_cons, envStep_fields, ih]

/-- See `envFold_minX`. -/
theorem envFold_minY (cs : List JCoord) :
    ∀ st : Envelope, (cs.foldl envStep st).minY =
      cs.foldl (fun m c => if jlt (JCoord.lat c) m then JCoord.lat c else m) st.minY := by
  induction cs with
  | nil => intro st; rfl
  | cons c cs ih =>
    intro st
    rw [List.foldl_cons, List.foldl_cons, envStep_fields, ih]

/-- See `envFold_minX`. -/
theorem envFold_maxY (cs : List JCoord) :
    ∀ st : Envelope, (cs.foldl envStep st).maxY =
      cs.foldl (fun m c => if jlt m (JCoord.lat c) then JCoord.lat c else m) st.maxY := by
  induction cs with
  | nil => intro st; rfl
  | cons c cs ih =>
    intro st
    rw [List.foldl_cons, List.foldl_cons, envStep_fields, ih]

/-- The nested per-ring fold is the fold over all coordinates. -/
theorem envFold_flatten (rings : List (List JCoord)) (init : Envelope) :
    rings.foldl (fun st ring => ring.foldl envStep st) init =
      (rings.flatten).foldl envStep init := by
  induction rings generalizing init with
  | nil => rfl
  | cons r rs ih => simp [List.foldl_append, ih]

/-- Running minimum over finite values, from a finite seed. -/
theorem jminFold_fin (xs : List ℚ) :
    ∀ a : ℚ, xs.foldl (fun m q => if jlt (JNum.fin q) m then JNum.fin q else m)
      (JNum.fin a) = .fin (xs.foldl min a) := by
  induction xs with
  | nil => intro a; rfl
  | cons q qs ih =>
    intro a
    simp only [List.foldl_cons]
    by_cases h : q < a
    · rw [if_pos (show jlt (JNum.fin q) (JNum.fin a) = true by simpa [jlt] using h),
        min_eq_right h.le]
      exact ih q
    · rw [if_neg (show ¬jlt (JNum.fin q) (JNum.fin a) = true by simpa [jlt] using h),
        min_eq_left (le_of_not_lt h)]
      exact ih a

/-- Running maximum over finite values, from a finite seed. -/
theorem jmaxFold_fin (xs : List ℚ) :
    ∀ a : ℚ, xs.foldl (fun m q => if jlt m (JNum.fin q) then JNum.fin q else m)
      (JNum.fin a) = .fin (xs.foldl max a) := by
  induction xs with
  | nil => intro a; rfl
  | cons q qs ih =>
    intro a
    simp only [List.foldl_cons]
    by_cases h : a < q
    · rw [if_pos (show jlt (JNum.fin a) (JNum.fin q) = true by simpa [jlt] using h),
        max_eq_right h.le]
      exact ih q
    · rw [if_neg (show ¬jlt (JNum.fin a) (JNum.fin q) = true by simpa [jlt] using h),
        max_eq_left (le_of_not_lt h)]
      exact ih a

/-- Seeded with `Infinity`, the running minimum is the list minimum. -/
theorem jminFold_posInf (xs : List ℚ) (a : ℚ) (h : listMin xs = some a) :
    xs.foldl (fun m q => if jlt (JNum.fin q) m then JNum.fin q else m) .posInf =
      .fin a := by
  match xs, h with
  | q :: qs, h =>
    simp only [listMin, Option.some.injEq] at h
    subst h
    simp only [List.foldl_cons, jlt]
    simpa using jminFold_fin qs q

/-- Seeded with `-Infinity`, the running maximum is the list maximum. -/
theorem jmaxFold_negInf (xs : List ℚ) (a : ℚ) (h : listMax xs = some a) :
    xs.foldl (fun m q => if jlt m (JNum.fin q) then JNum.fin q else m) .negInf =
      .fin a := by
  match xs, h with
  | q :: qs, h =>
    simp only [listMax, Option.some.injEq] at h
    subst h
    simp only [List.foldl_cons, jlt]
    simpa using jmaxFold_fin qs q

/-- The envelope computed by `createPolygonGpb` over a typed ring list is
    the coordinatewise minimum/maximum over every coordinate of every ring. -/
theorem computeEnvelope_spec (rs : List (List Coord)) (a b c d : ℚ)
    (hminX : listMin ((rs.flatten).map Coord.lng) = some a)
    (hmaxX : listMax ((rs.flatten).map Coord.lng) = some b)
    (hminY : listMin ((rs.flatten).map Coord.lat) = some c)
    (hmaxY : listMax ((rs.flatten).map Coord.lat) = some d) :
    computeEnvelope (ringsToJ rs) = ⟨.fin a, .fin b, .fin c, .fin d⟩ := by
  unfold computeEnvelope
  rw [envFold_flatten]
  have hflat : (ringsToJ rs).flatten = (rs.flatten).map JCoord.c := by
    simp [ringsToJ, List.map_flatten]
  rw [hflat]
  set env := ((rs.flatten).map JCoord.c).foldl envStep
    ⟨.posInf, .negInf, .posInf, .negInf⟩ with henv
  have h1 : env.minX = .fin a := by
    rw [henv, envFold_minX]
    calc ((rs.flatten).map JCoord.c).foldl
          (fun m c => if jlt (JCoord.lng c) m then JCoord.lng c else m) .posInf
        = (rs.flatten).foldl
            (fun m p => if jlt (JNum.fin p.lng) m then JNum.fin p.lng else m)
            .posInf := List.foldl_map _ _ _ _
      _ = ((rs.flatten).map Coord.lng).foldl
            (fun m q => if jlt (JNum.fin q) m then JNum.fin q else m) .posInf :=
          (List.foldl_map Coord.lng
            (fun m q => if jlt (JNum.fin q) m then JNum.fin q else m)
            rs.flatten JNum.posInf).symm
      _ = .fin a := jminFold_posInf _ a hminX
  have h2 : env.maxX = .fin b := by
    rw [henv, envFold_maxX]
    calc ((rs.flatten).map JCoord.c).foldl
          (fun m c => if jlt m (JCoord.lng c) then JCoord.lng c else m) .negInf
        = (rs.flatten).foldl
            (fun m p => if jlt m (JNum.fin p.lng) then JNum.fin p.lng else m)
            .negInf := List.foldl_map _ _ _ _
      _ = ((rs.flatten).map Coord.lng).foldl
            (fun m q => if jlt m (JNum.fin q) then JNum.fin q else m) .negInf :=
          (List.foldl_map Coord.lng
            (fun m q => if jlt m (JNum.fin q) then JNum.fin q else m)
            rs.flatten JNum.negInf).symm
      _ = .fin b := jmaxFold_negInf _ b hmaxX
  have h3 : env.minY = .fin c := by
    rw [henv, envFold_minY]
    calc ((rs.flatten).map JCoord.c).foldl
          (fun m co => if jlt (JCoord.lat co) m then JCoord.lat co else m) .posInf
        = (rs.flatten).foldl
            (fun m p => if jlt (JNum.fin p.lat) m then JNum.fin p.lat else m)
            .posInf := List.foldl_map _ _ _ _
      _ = ((rs.flatten).map Coord.lat).foldl
            (fun m q => if jlt (JNum.fin q) m then JNum.fin q else m) .posInf :=
          (List.foldl_map Coord.lat
            (fun m q => if jlt (JNum.fin q) m then JNum.fin q else m)
            rs.flatten JNum.posInf).symm
      _ = .fin c := jminFold_posInf _ c hminY
  have h4 : env.maxY = .fin d := by
    rw [henv, envFold_maxY]
    calc ((rs.flatten).map JCoord.c).foldl
          (fun m co => if jlt m (JCoord.lat co) then JCoord.lat co else m) .negInf
        = (rs.flatten).foldl
            (fun m p => if jlt m (JNum.fin p.lat) then JNum.fin p.lat else m)
            .negInf := List.foldl_map _ _ _ _
      _ = ((rs.flatten).map Coord.lat).foldl
            (fun m q => if jlt m (JNum.fin q) then JNum.fin q else m) .negInf :=
          (List.foldl_map Coord.lat
            (fun m q => if jlt m (JNum.fin q) then JNum.fin q else m)
            rs.flatten JNum.negInf).symm
      _ = .fin d := jmaxFold_negInf _ d hmaxY
  have hsplit : env = ⟨env.minX, env.maxX, env.minY, env.maxY⟩ := rfl
  rw [hsplit, h1, h2, h3, h4]

/-! ### Vertex deduplication -/

/-- Deduplication as the spec words it: keep a coordinate iff no earlier
    kept coordinate has the same 8-decimal key (first occurrence wins,
    insertion order preserved). -/
def specDedup (xs : List Coord) : List Coord :=
  xs.foldl
    (fun acc c =>
      if ∃ d ∈ acc, toFixed8key d = toFixed8key c then acc else acc ++ [c])
    []

/-- The `(vertices, seen)` fold agrees with `specDedup`'s accumulator fold
    whenever `seen` is exactly the keys of the accumulated vertices. -/
theorem addVertex_eq_spec (xs : List Coord) :
    ∀ acc : List Coord,
      (xs.foldl addVertex (acc, acc.map toFixed8key)).1 =
        xs.foldl
          (fun acc c =>
            if ∃ d ∈ acc, toFixed8key d = toFixed8key c then acc else acc ++ [c])
          acc := by
  induction xs with
  | nil => intro acc; rfl
  | cons c cs ih =>
    intro acc
    simp only [List.foldl_cons, addVertex]
    by_cases h : toFixed8key c ∈ acc.map toFixed8key
    · have h2 : ∃ d ∈ acc, toFixed8key d = toFixed8key c := by
        simpa [List.mem_map] using h
      rw [if_pos h, if_pos h2]
      exact ih acc
    · have h2 : ¬∃ d ∈ acc, toFixed8key d = toFixed8key c := by
        simpa [List.mem_map] using h
      rw [if_neg h, if_neg h2]
      have hmap : (acc ++ [c]).map toFixed8key =
          acc.map toFixed8key ++ [toFixed8key c] := by simp
      rw [← hmap]
      exact ih (acc ++ [c])

/-- `extractVertices` on a Polygon: first ring, closing element dropped,
    deduplicated per `specDedup`. -/
theorem extractVertices_polygon (r : List Coord) (rest : List (List Coord)) :
    extractVertices (.polygon (r :: rest)) = some (specDedup r.dropLast) := by
  simp only [extractVertices, specDedup]
  exact congrArg some (addVertex_eq_spec r.dropLast [])

/-- The MultiPolygon loop feeds the concatenation of the (closing-element
    dropped) first rings through the single shared state. -/
theorem extractVerticesMP_spec (polys : List (List (List Coord))) :
    ∀ st, (∀ p ∈ polys, p ≠ []) →
      extractVerticesMP polys st =
        some (((polys.map fun p => (p.headD []).dropLast).flatten).foldl
          addVertex st) := by
  induction polys with
  | nil => intro st h; rfl
  | cons p ps ih =>
    intro st h
    cases p with
    | nil => exact absurd rfl (h [] (by simp))
    | cons r rest =>
      simp only [extractVerticesMP]
      rw [ih _ fun q hq => h q (by simp [hq])]
      simp only [List.map_cons, List.flatten_cons, List.foldl_append,
        List.headD_cons]

/-- `extractVertices` on a MultiPolygon: one dedup pass over the
    concatenated outer rings (the `seen` set is shared across
    sub-polygons). -/
theorem extractVertices_multi (polys : List (List (List Coord)))
    (h : ∀ p ∈ polys, p ≠ []) :
    extractVertices (.multiPolygon polys) =
      some (specDedup ((polys.map fun p => (p.headD []).dropLast).flatten)) := by
  simp only [extractVertices]
  rw [extractVerticesMP_spec polys ([], []) h]
  exact congrArg some (addVertex_eq_spec _ [])

/-- The extraction behaviour claim C4 attributes to the code: dedup scoped
    to each sub-polygon, per-sub-polygon results concatenated. -/
def perPolygonDedup (polys : List (List (List Coord))) : List Coord :=
  (polys.map fun p => specDedup ((p.headD []).dropLast)).flatten

/-! ### GeoJSON exporter lemmas -/

/-- The polygon feature built for one parcel. -/
def polygonFeature (parcel : Parcel) : GeoFeature :=
  ⟨parcel.id, none, "polygons", geometryToGeojson parcel.geometry⟩

/-- The point features built for one parcel (1-based `point_index`). -/
def pointFeatures (parcel : Parcel) : List GeoFeature :=
  parcel.vertices.enum.map fun iv =>
    ⟨parcel.id, some (iv.1 + 1), "points", .pointG iv.2.lng iv.2.lat⟩

theorem foldl_push {α β : Type} (f : α → β) (xs : List α) :
    ∀ acc : List β, xs.foldl (fun a x => a ++ [f x]) acc = acc ++ xs.map f := by
  induction xs with
  | nil => intro acc; simp
  | cons x xs ih => intro acc; simp [ih]

theorem geojson_points_fold (parcels : List Parcel) :
    ∀ acc : List GeoFeature,
      parcels.foldl
        (fun acc parcel =>
          parcel.vertices.enum.foldl
            (fun acc iv =>
              acc ++ [⟨parcel.id, some (iv.1 + 1), "points",
                .pointG iv.2.lng iv.2.lat⟩])
            acc)
        acc = acc ++ (parcels.map pointFeatures).flatten := by
  induction parcels with
  | nil => intro acc; simp
  | cons parcel ps ih =>
    intro acc
    rw [List.foldl_cons, foldl_push
      (fun iv : ℕ × Coord =>
        (⟨parcel.id, some (iv.1 + 1), "points", .pointG iv.2.lng iv.2.lat⟩ :
          GeoFeature))
      parcel.vertices.enum acc]
    rw [ih]
    simp [pointFeatures, List.append_assoc]

/-- The feature list with both layers requested: all polygon features (in
    parcel order) followed by all point features (parcel order, then vertex
    order). -/
theorem geojson_both (parcels : List Parcel) :
    generateGeojsonWithLayers parcels ⟨true, true⟩ =
      parcels.map polygonFeature ++ (parcels.map pointFeatures).flatten := by
  simp only [generateGeojsonWithLayers, if_true]
  have h1 : List.foldl
      (fun acc parcel => acc ++
        [(⟨parcel.id, none, "polygons", geometryToGeojson parcel.geometry⟩ :
          GeoFeature)])
      ([] : List GeoFeature) parcels = [] ++ parcels.map polygonFeature :=
    foldl_push polygonFeature parcels []
  rw [h1, geojson_points_fold parcels ([] ++ parcels.map polygonFeature)]
  simp

/-! ### XML escaping -/

/-- The per-character entity substitution the spec requires. -/
def xmlEntity (c : Char) : List Char :=
  if c == '&' then "&amp;".data
  else if c == '<' then "&lt;".data
  else if c == '>' then "&gt;".data
  else if c == '"' then "&quot;".data
  else if c == Char.ofNat 39 then "&apos;".data
  else [c]

theorem replaceChar_append (x : Char) (rep as bs : List Char) :
    replaceChar x rep (as ++ bs) = replaceChar x rep as ++ replaceChar x rep bs := by
  simp [replaceChar]

/-- The four later stages applied to the first stage's image of one
    character produce that character's entity. -/
theorem escape_stageE (c : Char) :
    replaceChar (Char.ofNat 39) "&apos;".data (replaceChar '"' "&quot;".data
      (replaceChar '>' "&gt;".data (replaceChar '<' "&lt;".data
        (if c == '&' then "&amp;".data else [c])))) = xmlEntity c := by
  by_cases h1 : c = '&'
  · subst h1; decide
  · rw [if_neg (by simp [h1]), show xmlEntity c =
      (if c == '<' then "&lt;".data else if c == '>' then "&gt;".data
       else if c == '"' then "&quot;".data
       else if c == Char.ofNat 39 then "&apos;".data else [c]) from by
        simp [xmlEntity, h1]]
    by_cases h2 : c = '<'
    · subst h2; decide
    · rw [if_neg (by simp [h2])]
      by_cases h3 : c = '>'
      · subst h3; decide
      · rw [if_neg (by simp [h3])]
        by_cases h4 : c = '"'
        · subst h4; decide
        · rw [if_neg (by simp [h4])]
          by_cases h5 : c = Char.ofNat 39
          · subst h5; decide
          · rw [if_neg (by simp [h5])]
            simp [replaceChar, h1, h2, h3, h4, h5]

/-- The five sequential global replacements act as one per-character
    substitution (the entities introduced by earlier stages contain none of
    the characters replaced later). -/
theorem escape_stages (cs : List Char) :
    replaceChar (Char.ofNat 39) "&apos;".data (replaceChar '"' "&quot;".data
      (replaceChar '>' "&gt;".data (replaceChar '<' "&lt;".data
        (replaceChar '&' "&amp;".data cs)))) = cs.flatMap xmlEntity := by
  induction cs with
  | nil => rfl
  | cons c cs ih =>
    have hcons : replaceChar '&' "&amp;".data (c :: cs) =
        (if c == '&' then "&amp;".data else [c]) ++ replaceChar '&' "&amp;".data cs :=
      rfl
    rw [hcons, replaceChar_append, replaceChar_append, replaceChar_append,
      replaceChar_append, escape_stageE c, ih]
    rfl

/-- `escapeXml` replaces exactly the five reserved characters, each with its
    entity, leaving all other characters unchanged. -/
theorem escapeXml_eq (s : String) : escapeXml s = ⟨s.data.flatMap xmlEntity⟩ := by
  unfold escapeXml
  by_cases h : s = ""
  · subst h; rfl
  · rw [if_neg h]
    exact congrArg String.mk (escape_stages s.data)

/-! ### Timestamp isolation -/

/-- The GeoJSON exporter with the ambient clock made explicit: the source
    function contains no `Date` usage, so the clock argument is unread. -/
def generateGeojsonClocked (parcels : List Parcel) (options : ExportOptions)
    (timestamp : String) : List GeoFeature :=
  generateGeojsonWithLayers parcels options

/-- String concatenation is associative. -/
theorem strAppendAssoc (a b c : String) : (a ++ b) ++ c = a ++ (b ++ c) := by
  apply String.ext
  simp [String.data_append, List.append_assoc]

/-- The KML document factors as prefix ++ timestamp ++ suffix, with prefix
    and suffix independent of the timestamp. -/
theorem kml_factor (parcels : List Parcel) (options : ExportOptions) (t : String) :
    generateKmlWithLayers parcels options t =
      kmlDocPre parcels ++ t ++ kmlDocPost parcels options := by
  simp only [generateKmlWithLayers, kmlDocPre, kmlDocPost, strAppendAssoc]

/-- Re-timestamping a generated GeoPackage yields exactly the GeoPackage
    generated at the new timestamp: the timestamp reaches only the
    contents-registry `last_change` column. -/
theorem gpkg_retime (parcels : List Parcel) (options : ExportOptions)
    (t1 t2 : String) :
    setGpkgTimestamp t2 (generateGpkgWithLayers parcels options t1) =
      generateGpkgWithLayers parcels options t2 := by
  rcases options with ⟨ip, ipt⟩
  cases ip <;> cases ipt <;>
    simp [generateGpkgWithLayers, setGpkgTimestamp]

/-! ### A small XML well-formedness checker (specification side)

Enough of XML 1.0 for the documents this exporter emits: one optional XML
declaration, properly nested non-self-closing elements, quoted attribute
values free of `<`/`&`, and text in which `&` begins one of the five
predefined entity references. -/

/-- Characters allowed to continue an element name. -/
def isNameChar (c : Char) : Bool :=
  !(c == ' ' || c == '>' || c == '/' || c == '\n' || c == '\t' || c == '\r')

/-- Scan an opening tag after its name up to `>`; quoted values may not
    contain `<` or `&`. -/
def scanAttrs : ℕ → List Char → Option (List Char)
  | 0, _ => none
  | _ + 1, [] => none
  | fuel + 1, c :: rest =>
    if c == '>' then some rest
    else if c == '<' || c == '&' || c == '/' then none
    else if c == '"' then
      let inner := rest.takeWhile fun d => !(d == '"')
      if inner.any (fun d => d == '<' || d == '&') then none
      else
        match rest.drop inner.length with
        | '"' :: r2 => scanAttrs fuel r2
        | _ => none
    else scanAttrs fuel rest

/-- The document scanner: a stack of open element names. -/
def xmlRun : ℕ → List Char → List (List Char) → Bool
  | 0, _, _ => false
  | _ + 1, [], stack => stack.isEmpty
  | fuel + 1, '<' :: rest, stack =>
    match rest with
    | '/' :: r2 =>
      let name := r2.takeWhile fun c => !(c == '>')
      (match r2.dropWhile (fun c => !(c == '>')) with
       | '>' :: r3 =>
         (match stack with
          | [] => false
          | top :: s2 => name == top && xmlRun fuel r3 s2)
       | _ => false)
    | _ =>
      let name := rest.takeWhile isNameChar
      if name.isEmpty then false
      else
        match scanAttrs (fuel + 1) (rest.drop name.length) with
        | none => false
        | some r3 => xmlRun fuel r3 (name :: stack)
  | fuel + 1, '&' :: rest, stack =>
    if "amp;".data.isPrefixOf rest then xmlRun fuel (rest.drop 4) stack
    else if "lt;".data.isPrefixOf rest then xmlRun fuel (rest.drop 3) stack
    else if "gt;".data.isPrefixOf rest then xmlRun fuel (rest.drop 3) stack
    else if "quot;".data.isPrefixOf rest then xmlRun fuel (rest.drop 5) stack
    else if "apos;".data.isPrefixOf rest then xmlRun fuel (rest.drop 5) stack
    else false
  | fuel + 1, _ :: rest, stack => xmlRun fuel rest stack

/-- Substring occurrence, by leftmost scan (an executable equivalent to
    `List.IsInfix`, evaluable on long documents without deep `Decidable`
    instance recursion). -/
def containsSeg (pat : List Char) : List Char → Bool
  | [] => pat.isEmpty
  | c :: rest => pat.isPrefixOf (c :: rest) || containsSeg pat rest

/-- The scan decides infix occurrence. -/
theorem containsSeg_iff (pat cs : List Char) :
    containsSeg pat cs = true ↔ pat.IsInfix cs := by
  induction cs with
  | nil =>
    simp only [containsSeg, List.isEmpty_iff, List.infix_nil]
  | cons c rest ih =>
    simp only [containsSeg, Bool.or_eq_true, List.infix_cons_iff, ih,
      List.isPrefixOf_iff_prefix]

/-- Well-formedness of a whole document. -/
def xmlWellFormed (s : String) : Bool :=
  let cs := s.data
  if "<?xml".data.isPrefixOf cs then
    match cs.dropWhile (fun c => !(c == '>')) with
    | '>' :: r => xmlRun (cs.length + 1) r []
    | _ => false
  else xmlRun (cs.length + 1) cs []

/-! ### Concrete fixtures used by the claims -/

/-- A closed triangular ring. -/
def triExample : List Coord := [⟨0, 0⟩, ⟨0, 1⟩, ⟨1, 1⟩, ⟨0, 0⟩]

/-- A second, disjoint closed triangular ring. -/
def triExample2 : List Coord := [⟨2, 2⟩, ⟨2, 3⟩, ⟨3, 3⟩, ⟨2, 2⟩]

/-- The finite value of a parsed token slot (0 otherwise; the test stubs are
    only exercised on finite tokens). -/
def finOr0 : Option JNum → ℚ
  | some (.fin q) => q
  | _ => 0

/-- The projection stub of the spec's test properties:
    `(x, y) -> {lat: y/100000, lng: x/100000}`. -/
def stubProjection : Projection := fun x y =>
  ⟨finOr0 y / 100000, finOr0 x / 100000⟩

/-- A parcel whose geometry is a MultiPolygon of the two triangles. -/
def mpBugParcel : Parcel := ⟨"MP1", .multiPolygon [[triExample], [triExample2]], []⟩

/-- A control parcel with Polygon geometry. -/
def polyControlParcel : Parcel := ⟨"P1", .polygon [triExample], []⟩

/-- Two sub-polygons whose outer rings share the vertex `(0,0)`, with no
    duplicate inside either ring. -/
def mpSharedVertex : List (List (List Coord)) :=
  [[[⟨0, 0⟩, ⟨0, 1⟩, ⟨1, 1⟩, ⟨0, 0⟩]], [[⟨0, 0⟩, ⟨2, 2⟩, ⟨3, 3⟩, ⟨0, 0⟩]]]

/-- Parcels with 3 and 4 derived vertices respectively. -/
def c7parcel1 : Parcel := ⟨"A", .polygon [triExample], [⟨0, 0⟩, ⟨0, 1⟩, ⟨1, 1⟩]⟩

/-- See `c7parcel1`. -/
def c7parcel2 : Parcel :=
  ⟨"B", .polygon [triExample2], [⟨2, 2⟩, ⟨2, 3⟩, ⟨3, 3⟩, ⟨9, 9⟩]⟩

/-- A parcel whose id contains `&` and `<`. -/
def escapeParcel : Parcel := ⟨"A&B<C", .polygon [triExample], [⟨0, 0⟩]⟩

/-- The KML document for `escapeParcel`, both layers, a fixed timestamp. -/
def kmlEscapeDoc : String :=
  generateKmlWithLayers [escapeParcel] ⟨true, true⟩ "2024-01-01T00:00:00.000Z"

/-- The WKT input of the decoder round-trip property. -/
def c9wkt : String :=
  "SRID=2180;POLYGON((500000 300000, 500100 300000, 500100 300100, 500000 300100, 500000 300000))"

set_option maxRecDepth 100000

/-! ### The claims -/

/-- C1: `createPointGpb` writes the degenerate envelope
    minX = maxX = longitude, minY = maxY = latitude into its header; and for
    a ring list whose coordinates have minimum/maximum longitude `a`/`b` and
    minimum/maximum latitude `c`/`d` (over every coordinate of every ring,
    holes included), `createPolygonGpb` writes exactly the envelope
    `(a, b, c, d)` into its header. -/
theorem C1_header_envelope (lng lat : ℚ) (srsId : ℤ) (rs : List (List Coord))
    (a b c d : ℚ)
    (hminX : listMin ((rs.flatten).map Coord.lng) = some a)
    (hmaxX : listMax ((rs.flatten).map Coord.lng) = some b)
    (hminY : listMin ((rs.flatten).map Coord.lat) = some c)
    (hmaxY : listMax ((rs.flatten).map Coord.lat) = some d) :
    createPointGpb lng lat srsId =
      createGpbHeader srsId (some ⟨.fin lng, .fin lng, .fin lat, .fin lat⟩)
        ++ pointToWkb lng lat
    ∧ createPolygonGpb (ringsToJ rs) srsId =
        createGpbHeader srsId (some ⟨.fin a, .fin b, .fin c, .fin d⟩)
          ++ polygonToWkb (ringsToJ rs) := by
  constructor
  · exact createPointGpb_eq lng lat srsId
  · rw [createPolygonGpb_eq, computeEnvelope_spec rs a b c d hminX hmaxX hminY hmaxY]

/-- Witness for C1 at the triangle ring. -/
theorem C1_header_envelope_witness :
    (listMin (([triExample].flatten).map Coord.lng) = some 0
      ∧ listMax (([triExample].flatten).map Coord.lng) = some 1
      ∧ listMin (([triExample].flatten).map Coord.lat) = some 0
      ∧ listMax (([triExample].flatten).map Coord.lat) = some 1)
    ∧ (createPointGpb 7 8 4326 =
        createGpbHeader 4326 (some ⟨.fin 7, .fin 7, .fin 8, .fin 8⟩)
          ++ pointToWkb 7 8
      ∧ createPolygonGpb (ringsToJ [triExample]) 4326 =
          createGpbHeader 4326 (some ⟨.fin 0, .fin 1, .fin 0, .fin 1⟩)
            ++ polygonToWkb (ringsToJ [triExample])) :=
  ⟨⟨by with_unfolding_all decide, by with_unfolding_all decide,
    by with_unfolding_all decide, by with_unfolding_all decide⟩,
   C1_header_envelope 7 8 4326 [triExample] 0 1 0 1
     (by with_unfolding_all decide) (by with_unfolding_all decide)
     (by with_unfolding_all decide) (by with_unfolding_all decide)⟩

/-- C2: the encoder's output is exactly envelope header ++ WKB payload in
    the spec's little-endian layout: magic `G`,`P`, version 0, flag byte 3
    with an envelope (1 without), int32 srsId, four float64 envelope values
    minX, maxX, minY, maxY (header length 40 with envelope, 8 without);
    payload = byte-order flag 1, uint32 type code (1 point / 3 polygon),
    then the point's X,Y or the polygon's uint32 ring count and per-ring
    uint32 point count plus X,Y pairs in ring order. -/
theorem C2_binary_layout (srsId : ℤ) (envelope : Option Envelope) (lng lat : ℚ)
    (rings : List (List JCoord)) :
    createGpbHeader srsId envelope = gpbHeaderSpec srsId envelope
    ∧ (createGpbHeader srsId envelope).length = (if envelope.isSome then 40 else 8)
    ∧ pointToWkb lng lat = wkbPointSpec lng lat
    ∧ polygonToWkb rings = wkbPolygonSpec rings
    ∧ createPointGpb lng lat srsId =
        createGpbHeader srsId (some ⟨.fin lng, .fin lng, .fin lat, .fin lat⟩)
          ++ pointToWkb lng lat
    ∧ createPolygonGpb rings srsId =
        createGpbHeader srsId (some (computeEnvelope rings)) ++ polygonToWkb rings := by
  refine ⟨createGpbHeader_eq srsId envelope, ?_, pointToWkb_eq lng lat,
    polygonToWkb_eq rings, createPointGpb_eq lng lat srsId,
    createPolygonGpb_eq rings srsId⟩
  rw [createGpbHeader_eq]
  cases envelope with
  | none => rfl
  | some e => rfl

/-- C3: the GeoPackage exporter passes a MultiPolygon's coordinate nesting
    straight to `createPolygonGpb`, so a MultiPolygon parcel's stored blob
    is not the encoding of its ring structure: the blob differs from
    `createPolygonGpb` over the parcel's rings, its float bytes are `NaN`,
    its embedded envelope is the untouched seed `(∞, ∞, -∞, -∞)`, and the
    parcel contributes nothing to the layer bounding box; a Polygon parcel
    (control) is encoded as the claim states. -/
theorem C3_multipolygon_bug :
    ((generateGpkgWithLayers [mpBugParcel] ⟨true, false⟩ "T0").polygonRows.getD
        []).map (·.geom) ≠
      [createPolygonGpb (ringsToJ [triExample, triExample2]) 4326]
    ∧ (((generateGpkgWithLayers [mpBugParcel] ⟨true, false⟩ "T0").polygonRows.getD
        []).map (·.geom)).all (fun g => GByte.f64 .nan 0 ∈ g) = true
    ∧ (generateGpkgWithLayers [mpBugParcel] ⟨true, false⟩ "T0").contents.map
        (fun r => (r.minX, r.minY, r.maxX, r.maxY)) =
      [(.posInf, .posInf, .negInf, .negInf)]
    ∧ (generateGpkgWithLayers [polyControlParcel] ⟨true, false⟩ "T0").polygonRows =
        some [⟨1, "P1", createPolygonGpb (ringsToJ [triExample]) 4326⟩] := by
  refine ⟨by with_unfolding_all decide, by with_unfolding_all decide,
    by with_unfolding_all decide, by with_unfolding_all decide⟩

/-- C4 counterexample: on two sub-polygons sharing the vertex `(0,0)`, the
    code's extraction differs from the per-sub-polygon-scoped dedup the
    claim describes — the shared vertex appears once in total, not once per
    sub-polygon. -/
theorem C4_counterexample :
    extractVertices (.multiPolygon mpSharedVertex) ≠
      some (perPolygonDedup mpSharedVertex)
    ∧ (extractVertices (.multiPolygon mpSharedVertex)).map
        (fun l => l.count ⟨0, 0⟩) = some 1
    ∧ (perPolygonDedup mpSharedVertex).count ⟨0, 0⟩ = 2 := by
  refine ⟨by with_unfolding_all decide, by with_unfolding_all decide,
    by with_unfolding_all decide⟩

/-- C4 amended: for a MultiPolygon, `extractVertices` concatenates the
    sub-polygons' first rings (closing element dropped) and deduplicates
    them through one `seen` set shared across the whole call, so a vertex
    appearing in two sub-polygons is kept only at its first occurrence. -/
theorem C4_multipolygon_dedup (polys : List (List (List Coord)))
    (h : ∀ p ∈ polys, p ≠ []) :
    extractVertices (.multiPolygon polys) =
      some (specDedup ((polys.map fun p => (p.headD []).dropLast).flatten)) :=
  extractVertices_multi polys h

/-- Witness for the amended C4. -/
theorem C4_multipolygon_dedup_witness :
    (∀ p ∈ mpSharedVertex, p ≠ [])
    ∧ extractVertices (.multiPolygon mpSharedVertex) =
        some (specDedup
          ((mpSharedVertex.map fun p => (p.headD []).dropLast).flatten)) :=
  ⟨by decide, C4_multipolygon_dedup mpSharedVertex (by decide)⟩

/-- C5: for a Polygon, `extractVertices` is the first ring with its closing
    element dropped, deduplicated by the 8-decimal key with first occurrence
    winning and insertion order preserved (`specDedup`); on the concrete
    outer ring `[(0,0),(0,1),(1,1),(0,0)]` it returns exactly
    `[(0,0),(0,1),(1,1)]`. -/
theorem C5_polygon_extract (r : List Coord) (rest : List (List Coord)) :
    extractVertices (.polygon (r :: rest)) = some (specDedup r.dropLast)
    ∧ extractVertices (.polygon [triExample]) =
        some [⟨0, 0⟩, ⟨0, 1⟩, ⟨1, 1⟩] :=
  ⟨extractVertices_polygon r rest, by with_unfolding_all decide⟩

/-- C6 counterexample: the pair `"1"` does not parse as two numbers, yet the
    decoder succeeds — the destructured second slot is `undefined` and
    `Number.isNaN(undefined)` is `false`, so no error is raised. -/
theorem C6_counterexample :
    (parseWkt stubProjection (some "POLYGON((0 0, 1, 1 1, 0 0))")).isOk = true := by
  with_unfolding_all rfl

/-- The keyword dispatch fails on any cleaned input that starts with neither
    geometry keyword. -/
theorem detect_error (wkt : String)
    (hM : "MULTIPOLYGON".data.isPrefixOf (wkt.data.map Char.toUpper) = false)
    (hP : "POLYGON".data.isPrefixOf (wkt.data.map Char.toUpper) = false) :
    detectGeometryType wkt = .error "Unknown or unsupported WKT geometry type" := by
  simp [detectGeometryType, hM, hP]

/-- C6 amended: the decoder errors on empty/non-string input, on any input
    whose SRID-stripped text starts with neither POLYGON nor MULTIPOLYGON
    (e.g. LINESTRING), on mismatched parenthesization, and on a coordinate
    token that parses as `NaN`; a pair with fewer than two tokens, however,
    is not rejected (see `C6_counterexample`), and a successful decode
    always returns a complete geometry value. -/
theorem C6_decoder_errors (proj : Projection) (s : String)
    (hM : "MULTIPOLYGON".data.isPrefixOf
      ((removeSrid s).data.map Char.toUpper) = false)
    (hP : "POLYGON".data.isPrefixOf
      ((removeSrid s).data.map Char.toUpper) = false) :
    (parseWkt proj none).isOk = false
    ∧ (parseWkt proj (some "")).isOk = false
    ∧ (parseWkt proj (some s)).isOk = false
    ∧ (parseWkt stubProjection (some "LINESTRING(0 0, 1 1)")).isOk = false
    ∧ (parseWkt stubProjection (some "POLYGON(1 1, 2 2)")).isOk = false
    ∧ (parseWkt stubProjection
        (some "POLYGON((0 0, x 1, 1 1, 0 0))")).isOk = false := by
  refine ⟨rfl, rfl, ?_, by with_unfolding_all rfl, by with_unfolding_all rfl,
    by with_unfolding_all rfl⟩
  by_cases hs : s = ""
  · subst hs; rfl
  · simp only [parseWkt, if_neg hs, detect_error (removeSrid s) hM hP]
    rfl

/-- Witness for the amended C6 at the LINESTRING input. -/
theorem C6_decoder_errors_witness :
    ("MULTIPOLYGON".data.isPrefixOf
        ((removeSrid "LINESTRING(0 0, 1 1)").data.map Char.toUpper) = false
      ∧ "POLYGON".data.isPrefixOf
        ((removeSrid "LINESTRING(0 0, 1 1)").data.map Char.toUpper) = false)
    ∧ ((parseWkt stubProjection none).isOk = false
      ∧ (parseWkt stubProjection (some "")).isOk = false
      ∧ (parseWkt stubProjection (some "LINESTRING(0 0, 1 1)")).isOk = false
      ∧ (parseWkt stubProjection (some "LINESTRING(0 0, 1 1)")).isOk = false
      ∧ (parseWkt stubProjection (some "POLYGON(1 1, 2 2)")).isOk = false
      ∧ (parseWkt stubProjection
          (some "POLYGON((0 0, x 1, 1 1, 0 0))")).isOk = false) :=
  ⟨⟨by decide, by decide⟩,
   C6_decoder_errors stubProjection "LINESTRING(0 0, 1 1)" (by decide) (by decide)⟩

/-- C7: with both layers requested the feature list is every parcel's
    polygon feature (properties `parcel_id`, layer `"polygons"`) followed by
    every parcel's per-vertex point features (1-based `point_index`, layer
    `"points"`); total count is parcel count plus vertex count, and for two
    parcels with 3 and 4 vertices it is 9. -/
theorem C7_geojson_layers (parcels : List Parcel) :
    generateGeojsonWithLayers parcels ⟨true, true⟩ =
      parcels.map polygonFeature ++ (parcels.map pointFeatures).flatten
    ∧ (∀ parcel, polygonFeature parcel =
        ⟨parcel.id, none, "polygons", geometryToGeojson parcel.geometry⟩)
    ∧ (∀ parcel, pointFeatures parcel =
        parcel.vertices.enum.map fun iv =>
          ⟨parcel.id, some (iv.1 + 1), "points", .pointG iv.2.lng iv.2.lat⟩)
    ∧ (generateGeojsonWithLayers parcels ⟨true, true⟩).length =
        parcels.length + (parcels.map fun p => p.vertices.length).sum
    ∧ (generateGeojsonWithLayers [c7parcel1, c7parcel2] ⟨true, true⟩).length = 9 := by
  refine ⟨geojson_both parcels, fun _ => rfl, fun _ => rfl, ?_,
    by with_unfolding_all decide⟩
  rw [geojson_both parcels]
  have hlen : ∀ p : Parcel, (List.length ∘ pointFeatures) p = p.vertices.length := by
    intro p; simp [pointFeatures, Function.comp]
  simp only [List.length_append, List.length_map, List.length_flatten,
    List.map_map, List.map_congr_left fun p _ => hlen p]

/-- C8: `escapeXml` substitutes the five XML reserved characters by their
    entities (and leaves everything else unchanged), every inserted parcel
    id goes through it, and on a parcel id containing `&` and `<` the
    document contains the escaped id (never the raw id) and passes an XML
    well-formedness check. -/
theorem C8_xml_escaping :
    (∀ s : String, escapeXml s = ⟨s.data.flatMap xmlEntity⟩)
    ∧ escapeXml "A&B<C" = "A&amp;B&lt;C"
    ∧ "A&amp;B&lt;C".data.IsInfix kmlEscapeDoc.data
    ∧ ¬("A&B<C".data.IsInfix kmlEscapeDoc.data)
    ∧ xmlWellFormed kmlEscapeDoc = true := by
  refine ⟨escapeXml_eq, by with_unfolding_all rfl, ?_, ?_,
    by with_unfolding_all decide⟩
  · rw [← containsSeg_iff]
    with_unfolding_all decide
  · rw [← containsSeg_iff]
    with_unfolding_all decide

/-- C9: decoding the SRID-prefixed closed square with the stub projection
    yields a Polygon with exactly one ring of five coordinates whose first
    coordinate equals its last. -/
theorem C9_decode_square :
    ∃ ring : List Coord,
      parseWkt stubProjection (some c9wkt) = .ok (.polygon [ring])
      ∧ ring.length = 5
      ∧ ring.head? = ring.getLast? := by
  refine ⟨[⟨3, 5⟩, ⟨3, 5001/1000⟩, ⟨3001/1000, 5001/1000⟩, ⟨3001/1000, 5⟩, ⟨3, 5⟩],
    ?_, rfl, by with_unfolding_all rfl⟩
  with_unfolding_all rfl

/-- C10: the GeoJSON exporter reads no clock, so its output is independent
    of the run; the KML document is prefix ++ timestamp ++ suffix with
    prefix and suffix functions of the inputs only; and re-timestamping a
    generated GeoPackage (its `last_change` registry fields) gives exactly
    the GeoPackage generated at the other time — i.e. two runs differ only
    in the embedded timestamp. -/
theorem C10_timestamp_isolation (parcels : List Parcel) (options : ExportOptions)
    (t1 t2 : String) :
    generateGeojsonClocked parcels options t1 =
      generateGeojsonClocked parcels options t2
    ∧ generateKmlWithLayers parcels options t1 =
        kmlDocPre parcels ++ t1 ++ kmlDocPost parcels options
    ∧ generateKmlWithLayers parcels options t2 =
        kmlDocPre parcels ++ t2 ++ kmlDocPost parcels options
    ∧ setGpkgTimestamp t2 (generateGpkgWithLayers parcels options t1) =
        generateGpkgWithLayers parcels options t2 :=
  ⟨rfl, kml_factor parcels options t1, kml_factor parcels options t2,
   gpkg_retime parcels options t1 t2⟩

end Parcelizator
